import Mathlib

/-!
# Verification of the netavark firewall core (iptables driver and persisted config store)

This file gives a shallow embedding of `src/firewall/iptables.rs` and
`src/firewall/state.rs` and proves properties of the embedded operations.

The iptables backend state is modelled as an association list from
(table, chain) pairs to the ordered list of rule strings of that chain;
the primitive operations of the `iptables` crate (rule existence check,
append, positional insert, chain creation/flush/delete, rule delete) are
modelled as total functions on that state, failing (`Except.error`) in the
situations in which the real backend command fails (for example appending
to a chain that does not exist).

The filesystem used by the config store is modelled as an association list
from paths (lists of path components, mirroring `PathBuf` components) to
file contents.
-/

set_option autoImplicit false

namespace Netavark

/-- Errors surfaced by the embedded firewall driver operations.
`config` corresponds to `std::io::Error::new(ErrorKind::Other, ..)` raised by
the driver itself, `panic` marks a Rust panic (out-of-bounds index), and
`backend` marks a failure of the underlying iptables command. -/
inductive FwError where
  | config (msg : String)
  | panic (msg : String)
  | backend (msg : String)
deriving DecidableEq, Repr

/-- The iptables configuration: for every existing (table, chain) pair the
ordered list of rules of that chain.  A key being present means the chain
exists (possibly with no rules). -/
structure IptState where
  chains : List ((String × String) × List String)
deriving DecidableEq, Repr

/-- Look up the rules of chain `c` of table `t` (first matching entry). -/
def lookupRules : List ((String × String) × List String) → String → String → Option (List String)
  | [], _, _ => none
  | e :: rest, t, c => if e.1.1 = t ∧ e.1.2 = c then some e.2 else lookupRules rest t c

/-- Replace the rules of the first entry for chain `c` of table `t`. -/
def updateRules : List ((String × String) × List String) → String → String → List String →
    List ((String × String) × List String)
  | [], _, _, _ => []
  | e :: rest, t, c, rs => if e.1.1 = t ∧ e.1.2 = c then (e.1, rs) :: rest
      else e :: updateRules rest t c rs

/-- Drop the first entry for chain `c` of table `t`. -/
def dropChain : List ((String × String) × List String) → String → String →
    List ((String × String) × List String)
  | [], _, _ => []
  | e :: rest, t, c => if e.1.1 = t ∧ e.1.2 = c then rest else e :: dropChain rest t c

/-- The rules of chain `c` in table `t`, `none` when the chain does not exist. -/
def getRules (s : IptState) (t c : String) : Option (List String) :=
  lookupRules s.chains t c

/-- State with the rules of chain `c` in table `t` replaced by `rs`. -/
def setRules (s : IptState) (t c : String) (rs : List String) : IptState :=
  ⟨updateRules s.chains t c rs⟩

/-- State with a new empty chain `c` added to table `t` (listed last). -/
def addChain (s : IptState) (t c : String) : IptState :=
  ⟨s.chains ++ [((t, c), [])]⟩

/-- State with chain `c` of table `t` removed. -/
def removeChain (s : IptState) (t c : String) : IptState :=
  ⟨dropChain s.chains t c⟩

/-! ## Primitive iptables operations (the `iptables` crate capabilities) -/

/-- `IPTables::list_chains`: the names of the chains of table `t`. -/
def list_chains (s : IptState) (t : String) : List String :=
  (s.chains.filter (fun e => e.1.1 == t)).map (fun e => e.1.2)

/-- `IPTables::exists`: whether `rule` is present in chain `c` of table `t`
(`false` when the chain does not exist). -/
def ruleExists (s : IptState) (t c rule : String) : Bool :=
  match getRules s t c with
  | some rs => rs.contains rule
  | none => false

/-- `IPTables::append`: append `rule` at the end of chain `c` of table `t`;
fails when the chain does not exist. -/
def ipt_append (s : IptState) (t c rule : String) : Except FwError IptState :=
  match getRules s t c with
  | some rs => .ok (setRules s t c (rs ++ [rule]))
  | none => .error (.backend ("append: no chain " ++ c ++ " in table " ++ t))

/-- `IPTables::insert`: insert `rule` at (1-based) position `pos` of chain `c`
of table `t`; fails when the chain does not exist. -/
def ipt_insert (s : IptState) (t c rule : String) (pos : Nat) : Except FwError IptState :=
  match getRules s t c with
  | some rs => .ok (setRules s t c (rs.take (pos - 1) ++ rule :: rs.drop (pos - 1)))
  | none => .error (.backend ("insert: no chain " ++ c ++ " in table " ++ t))

/-- `IPTables::new_chain`: create chain `c` in table `t`;
fails when it already exists. -/
def ipt_new_chain (s : IptState) (t c : String) : Except FwError IptState :=
  match getRules s t c with
  | some _ => .error (.backend ("new_chain: chain " ++ c ++ " exists in table " ++ t))
  | none => .ok (addChain s t c)

/-- `IPTables::flush_chain`: drop all rules of chain `c` of table `t`. -/
def ipt_flush_chain (s : IptState) (t c : String) : Except FwError IptState :=
  match getRules s t c with
  | some _ => .ok (setRules s t c [])
  | none => .error (.backend ("flush_chain: no chain " ++ c ++ " in table " ++ t))

/-- `IPTables::delete_chain`: delete the (empty) chain `c` of table `t`. -/
def ipt_delete_chain (s : IptState) (t c : String) : Except FwError IptState :=
  match getRules s t c with
  | some [] => .ok (removeChain s t c)
  | some _ => .error (.backend ("delete_chain: chain " ++ c ++ " not empty"))
  | none => .error (.backend ("delete_chain: no chain " ++ c ++ " in table " ++ t))

/-- `IPTables::delete`: delete the first occurrence of `rule` from chain `c`
of table `t`; fails when the rule is not present. -/
def ipt_delete (s : IptState) (t c rule : String) : Except FwError IptState :=
  match getRules s t c with
  | some rs =>
    if rs.contains rule then .ok (setRules s t c (rs.erase rule))
    else .error (.backend ("delete: no rule " ++ rule))
  | none => .error (.backend ("delete: no chain " ++ c ++ " in table " ++ t))

/-! ## Constants of `src/firewall/iptables.rs` -/

def HEXMARK : String := "0x2000"
def NAT : String := "nat"
def PRIV_CHAIN_NAME : String := "NETAVARK_FORWARD"
def HOSTPORT_DNAT_CHAIN : String := "NETAVARK-HOSTPORT-DNAT"
def HOSTPORT_SETMARK_CHAIN : String := "NETAVARK-HOSTPORT-SETMARK"
def NETAVARK_HOSTPORT_MASK_CHAIN : String := "NETAVARK-HOSTPORT-MASQ"
def CONTAINER_DN_CHAIN : String := "NETAVARK-DN-"
def CONTAINER_CHAIN : String := "NETAVARK-"
def PREROUTING_CHAIN : String := "PREROUTING"
def OUTPUT_CHAIN : String := "OUTPUT"
def POSTROUTING_JUMP : String := "POSTROUTING"
def FILTER_JUMP : String := "filter"
def MARK_JUMP : String := "MARK"
def DNAT_JUMP : String := "DNAT"
def MASQ_JUMP : String := "MASQUERADE"
def ACCEPT_JUMP : String := "ACCEPT"

/-! ## Helper functions of `src/firewall/iptables.rs` -/

/-- `append_unique`: append a rule to a chain if it does not exist. -/
def append_unique (s : IptState) (table chain rule : String) : Except FwError IptState :=
  if ruleExists s table chain rule then .ok s
  else ipt_append s table chain rule

/-- `chain_exists`: whether the chain occurs in the table's chain listing. -/
def chain_exists (s : IptState) (table chain : String) : Bool :=
  (list_chains s table).any (fun i => i == chain)

/-- `add_chain_unique`: add a chain if it does not exist, else do nothing. -/
def add_chain_unique (s : IptState) (table new_chain : String) : Except FwError IptState :=
  if chain_exists s table new_chain then .ok s
  else ipt_new_chain s table new_chain

/-- `remove_chain_and_rules`: flush and delete a chain; not fatal when the
chain is absent. -/
def remove_chain_and_rules (s : IptState) (table chain : String) : Except FwError IptState :=
  if ¬chain_exists s table chain then .ok s
  else do
    let s ← ipt_flush_chain s table chain
    ipt_delete_chain s table chain

/-- `remove_if_rule_exists`: delete a rule, doing nothing when it is absent. -/
def remove_if_rule_exists (s : IptState) (table chain rule : String) : Except FwError IptState :=
  if ¬ruleExists s table chain rule then .ok s
  else ipt_delete s table chain rule

/-! ## Request types

Modelled from the spec: the definitions of `types::Network`, `types::Subnet`,
`types::PortMapping`, `types::PerNetworkOptions` and
`types::TeardownPortForward` live in `src/network/types.rs`, which is not part
of the provided sources; only the fields the firewall driver reads are
modelled, with IP addresses and CIDRs kept in their rendered textual form
(the driver only ever uses their `to_string()` rendering). -/

/-- Modelled from the spec: one subnet of a network, kept as its rendered
CIDR text. -/
structure Subnet where
  subnet : String
deriving DecidableEq, Repr

/-- Modelled from the spec: the network descriptor fields read by the
firewall driver (set of subnets and bridge interface name). -/
structure Network where
  subnets : Option (List Subnet)
  network_interface : Option String
deriving DecidableEq, Repr

/-- Modelled from the spec: one (host port, container port, protocol)
mapping. -/
structure PortMapping where
  host_port : Nat
  container_port : Nat
  protocol : String
deriving DecidableEq, Repr

/-- Modelled from the spec: the per-network options read by the driver
(the container's statically assigned addresses, rendered). -/
structure PerNetworkOptions where
  static_ips : Option (List String)
deriving DecidableEq, Repr

/-- Modelled from the spec: the argument bundle of `teardown_port_forward`. -/
structure TeardownPortForward where
  network : Network
  container_id : String
  port_mappings : List PortMapping
  network_name : String
  id_network_hash : String
  options : PerNetworkOptions
  complete_teardown : Bool
deriving DecidableEq, Repr

/-! ## Rule texts

Each definition renders exactly the `format!` string of the source. -/

/-- The netavark jump rule inserted at the front of the built-in FORWARD
chain of the filter table. -/
def netavark_fw_rule : String :=
  "-m comment --comment 'netavark firewall plugin rules' -j " ++ PRIV_CHAIN_NAME

/-- Per-network NAT accept rule `-d <subnet> -j ACCEPT`. -/
def nat_accept_rule (subnet : String) : String :=
  "-d " ++ subnet ++ " -j " ++ ACCEPT_JUMP

/-- The masquerade-all-except-multicast rule. -/
def masq_rule : String :=
  "! -d 224.0.0.0/4 -j MASQUERADE"

/-- Allow established/related traffic towards the subnet. -/
def allow_incoming_rule (subnet : String) : String :=
  "-d " ++ subnet ++ " -m conntrack --ctstate RELATED,ESTABLISHED -j ACCEPT"

/-- Allow all outgoing traffic from the subnet. -/
def allow_outgoing_rule (subnet : String) : String :=
  "-s " ++ subnet ++ " -j ACCEPT"

/-- Comment tying a POSTROUTING rule to a (network name, container id). -/
def comment_network_cid (network_name container_id : String) : String :=
  "-m comment --comment 'name: " ++ network_name ++ " id: " ++ container_id ++ "'"

/-- Comment tying a DNAT entry rule to a (network name, container id). -/
def comment_dn_network_cid (network_name container_id : String) : String :=
  "-m comment --comment 'dnat name: " ++ network_name ++ " id: " ++ container_id ++ "'"

/-- PREROUTING/OUTPUT jump into the host-port DNAT entry chain. -/
def dnat_entry_jump_rule : String :=
  "-j " ++ HOSTPORT_DNAT_CHAIN ++ " -m addrtype --dst-type LOCAL"

/-- Rule of the mark-setting chain (note the double space of the source). -/
def setmark_rule : String :=
  "-j " ++ MARK_JUMP ++ "  --set-xmark " ++ HEXMARK ++ "/" ++ HEXMARK

/-- Rule of the host-port masquerade chain. -/
def hostport_masq_rule : String :=
  "-j " ++ MASQ_JUMP ++ " -m comment --comment 'netavark portfw masq mark' -m mark --mark "
    ++ HEXMARK ++ "/" ++ HEXMARK

/-- POSTROUTING jump into the host-port masquerade chain (the source's
format string carries a trailing space). -/
def postrouting_masq_jump_rule : String :=
  "-j " ++ NETAVARK_HOSTPORT_MASK_CHAIN ++ " "

/-- POSTROUTING jump into the per-network-hash chain, scoped to the
container's address and carrying the identifying comment. -/
def postrouting_container_rule (network_chain_name container_ip network_name container_id :
    String) : String :=
  "-j " ++ network_chain_name ++ " -s " ++ container_ip ++ " "
    ++ comment_network_cid network_name container_id

/-- DNAT entry-chain rule matching the host port of one mapping. -/
def hostport_dnat_rule (network_dn_chain_name network_name container_id : String)
    (i : PortMapping) : String :=
  "-j " ++ network_dn_chain_name ++ " -p tcp -m multiport --destination-ports "
    ++ toString i.host_port ++ " " ++ comment_dn_network_cid network_name container_id

/-- Mark-setting rule sourced from the container's subnet. -/
def setmark_network_rule (container_network_address : String) (i : PortMapping) : String :=
  "-j " ++ HOSTPORT_SETMARK_CHAIN ++ " -s " ++ container_network_address
    ++ " -p tcp --dport " ++ toString i.host_port

/-- Mark-setting rule sourced from loopback. -/
def setmark_localhost_rule (i : PortMapping) : String :=
  "-j " ++ HOSTPORT_SETMARK_CHAIN ++ " -s 127.0.0.1 -p tcp --dport " ++ toString i.host_port

/-- DNAT rule rewriting the destination to the container address and port. -/
def container_dest_rule (container_ip : String) (i : PortMapping) : String :=
  "-j " ++ DNAT_JUMP ++ " -p tcp --to-destination " ++ container_ip ++ ":"
    ++ toString i.container_port ++ " --destination-port " ++ toString i.host_port

/-! ## The firewall driver operations -/

/-- Body of the per-subnet loop of `setup_network`. -/
def setup_network_subnet (network_hash_name : String) (s : IptState) (network : Subnet) :
    Except FwError IptState := do
  let prefixed_network_hash_name := "NETAVARK" ++ "-" ++ network_hash_name
  let s ← add_chain_unique s NAT prefixed_network_hash_name
  let s ← append_unique s NAT prefixed_network_hash_name (nat_accept_rule network.subnet)
  let s ← append_unique s NAT prefixed_network_hash_name masq_rule
  let s ← add_chain_unique s FILTER_JUMP PRIV_CHAIN_NAME
  let s ← if ruleExists s FILTER_JUMP "FORWARD" netavark_fw_rule then .ok s
          else ipt_insert s FILTER_JUMP "FORWARD" netavark_fw_rule 1
  let s ← append_unique s FILTER_JUMP PRIV_CHAIN_NAME (allow_incoming_rule network.subnet)
  append_unique s FILTER_JUMP PRIV_CHAIN_NAME (allow_outgoing_rule network.subnet)

/-- The per-subnet loop of `setup_network`. -/
def setup_network_loop (network_hash_name : String) (subs : List Subnet) (s : IptState) :
    Except FwError IptState :=
  match subs with
  | [] => .ok s
  | sub :: rest =>
    match setup_network_subnet network_hash_name s sub with
    | .ok s' => setup_network_loop network_hash_name rest s'
    | .error e => .error e

/-- `IptablesDriver::setup_network`. -/
def setup_network (net : Network) (network_hash_name : String) (s : IptState) :
    Except FwError IptState :=
  match net.subnets with
  | some subnet => setup_network_loop network_hash_name subnet s
  | none => .ok s

/-- Body of the per-subnet loop of `teardown_network`. -/
def teardown_network_subnet (complete_teardown : Bool) (s : IptState) (network : Subnet) :
    Except FwError IptState := do
  let s ← append_unique s FILTER_JUMP PRIV_CHAIN_NAME (allow_incoming_rule network.subnet)
  let s ← append_unique s FILTER_JUMP PRIV_CHAIN_NAME (allow_outgoing_rule network.subnet)
  if complete_teardown then do
    let s ← remove_if_rule_exists s FILTER_JUMP PRIV_CHAIN_NAME
      (allow_incoming_rule network.subnet)
    remove_if_rule_exists s FILTER_JUMP PRIV_CHAIN_NAME (allow_outgoing_rule network.subnet)
  else .ok s

/-- The per-subnet loop of `teardown_network`. -/
def teardown_network_loop (complete_teardown : Bool) (subs : List Subnet) (s : IptState) :
    Except FwError IptState :=
  match subs with
  | [] => .ok s
  | sub :: rest =>
    match teardown_network_subnet complete_teardown s sub with
    | .ok s' => teardown_network_loop complete_teardown rest s'
    | .error e => .error e

/-- `IptablesDriver::teardown_network`. -/
def teardown_network (net : Network) (complete_teardown : Bool) (s : IptState) :
    Except FwError IptState :=
  match net.subnets with
  | some subnet => teardown_network_loop complete_teardown subnet s
  | none => .ok s

/-- Body of the per-port loop of `setup_port_forward`. -/
def setup_port_loop (network_dn_chain_name network_name container_id
    container_network_address container_ip : String) (pms : List PortMapping) (s : IptState) :
    Except FwError IptState :=
  match pms with
  | [] => .ok s
  | i :: rest =>
    match (do
      let s ← append_unique s NAT HOSTPORT_DNAT_CHAIN
        (hostport_dnat_rule network_dn_chain_name network_name container_id i)
      let s ← append_unique s NAT network_dn_chain_name
        (setmark_network_rule container_network_address i)
      let s ← append_unique s NAT network_dn_chain_name (setmark_localhost_rule i)
      append_unique s NAT network_dn_chain_name (container_dest_rule container_ip i) :
        Except FwError IptState) with
    | .ok s' => setup_port_loop network_dn_chain_name network_name container_id
        container_network_address container_ip rest s'
    | .error e => .error e

/-- `IptablesDriver::setup_port_forward`.  On success the applied sysctl
settings are returned alongside the resulting iptables state. -/
def setup_port_forward (network : Network) (container_id : String)
    (port_mappings : List PortMapping) (network_name id_network_hash : String)
    (options : PerNetworkOptions) (s : IptState) :
    Except FwError (List (String × String) × IptState) := do
  let sysctls := match network.network_interface with
    | none => ([] : List (String × String))
    | some i => [("net.ipv4.conf." ++ i ++ ".route_localnet", "1")]
  let container_ips ← match options.static_ips with
    | some ips => Except.ok ips
    | none => Except.error (.config "no container ip provided")
  let container_ip ← match container_ips[0]? with
    | some ip => Except.ok ip
    | none => Except.error (.panic "index out of bounds: the len is 0 but the index is 0")
  let networks ← match network.subnets with
    | some subs => Except.ok subs
    | none => Except.error (.config "no network address provided")
  let container_network_address ← match networks[0]? with
    | some sub => Except.ok sub.subnet
    | none => Except.error (.panic "index out of bounds: the len is 0 but the index is 0")
  let network_dn_chain_name := CONTAINER_DN_CHAIN ++ id_network_hash
  let network_chain_name := CONTAINER_CHAIN ++ id_network_hash
  let s ← add_chain_unique s NAT HOSTPORT_DNAT_CHAIN
  let s ← add_chain_unique s NAT HOSTPORT_SETMARK_CHAIN
  let s ← add_chain_unique s NAT NETAVARK_HOSTPORT_MASK_CHAIN
  let s ← add_chain_unique s NAT network_dn_chain_name
  let s ← append_unique s NAT PREROUTING_CHAIN dnat_entry_jump_rule
  let s ← append_unique s NAT OUTPUT_CHAIN dnat_entry_jump_rule
  let s ← append_unique s NAT HOSTPORT_SETMARK_CHAIN setmark_rule
  let s ← append_unique s NAT NETAVARK_HOSTPORT_MASK_CHAIN hostport_masq_rule
  let s ← append_unique s NAT POSTROUTING_JUMP postrouting_masq_jump_rule
  let s ← append_unique s NAT POSTROUTING_JUMP
    (postrouting_container_rule network_chain_name container_ip network_name container_id)
  let s ← setup_port_loop network_dn_chain_name network_name container_id
    container_network_address container_ip port_mappings s
  Except.ok (sysctls, s)

/-- Body of the per-port loop of `teardown_port_forward`. -/
def teardown_port_loop (network_dn_chain_name network_name container_id
    container_network_address container_ip : String) (pms : List PortMapping) (s : IptState) :
    Except FwError IptState :=
  match pms with
  | [] => .ok s
  | i :: rest =>
    match (do
      let s ← remove_if_rule_exists s NAT HOSTPORT_DNAT_CHAIN
        (hostport_dnat_rule network_dn_chain_name network_name container_id i)
      let s ← remove_if_rule_exists s NAT network_dn_chain_name
        (setmark_network_rule container_network_address i)
      let s ← remove_if_rule_exists s NAT network_dn_chain_name (setmark_localhost_rule i)
      remove_if_rule_exists s NAT network_dn_chain_name (container_dest_rule container_ip i) :
        Except FwError IptState) with
    | .ok s' => teardown_port_loop network_dn_chain_name network_name container_id
        container_network_address container_ip rest s'
    | .error e => .error e

/-- `IptablesDriver::teardown_port_forward`. -/
def teardown_port_forward (tear : TeardownPortForward) (s : IptState) :
    Except FwError IptState := do
  let container_ips ← match tear.options.static_ips with
    | some ips => Except.ok ips
    | none => Except.error (.config "no container ip provided")
  let networks ← match tear.network.subnets with
    | some subs => Except.ok subs
    | none => Except.error (.config "no network address provided")
  let container_network_address ← match networks[0]? with
    | some sub => Except.ok sub.subnet
    | none => Except.error (.panic "index out of bounds: the len is 0 but the index is 0")
  let network_dn_chain_name := CONTAINER_DN_CHAIN ++ tear.id_network_hash
  let network_chain_name := CONTAINER_CHAIN ++ tear.id_network_hash
  let container_ip ← match container_ips[0]? with
    | some ip => Except.ok ip
    | none => Except.error (.panic "index out of bounds: the len is 0 but the index is 0")
  let s ← remove_if_rule_exists s NAT POSTROUTING_JUMP
    (postrouting_container_rule network_chain_name container_ip tear.network_name
      tear.container_id)
  let s ← teardown_port_loop network_dn_chain_name tear.network_name tear.container_id
    container_network_address container_ip tear.port_mappings s
  if tear.complete_teardown then do
    let s ← remove_chain_and_rules s NAT network_chain_name
    remove_chain_and_rules s NAT network_dn_chain_name
  else .ok s

/-! ## Filesystem model for `src/firewall/state.rs`

A path is its list of components (mirroring `PathBuf`), the filesystem an
association list from paths to file contents; directories are implicit. -/

/-- Errors of filesystem operations (`std::io::ErrorKind`). -/
inductive IoErr where
  | notFound
  | alreadyExists
deriving DecidableEq, Repr

/-- Errors of the config store operations (`NetavarkError`). -/
inductive StErr where
  | io (e : IoErr)
  | deser
deriving DecidableEq, Repr

/-- The filesystem: an association list from paths to contents. -/
structure Fs where
  files : List (List String × String)
deriving DecidableEq, Repr

/-- Content of the file at `p` (first matching entry). -/
def lookupFile : List (List String × String) → List String → Option String
  | [], _ => none
  | e :: rest, p => if e.1 = p then some e.2 else lookupFile rest p

/-- Overwrite the first entry at `p` or append a new one. -/
def writeFile : List (List String × String) → List String → String →
    List (List String × String)
  | [], p, v => [(p, v)]
  | e :: rest, p, v => if e.1 = p then (p, v) :: rest else e :: writeFile rest p v

/-- Drop the entry at `p` (every entry at `p`: a real filesystem holds at
most one entry per path). -/
def eraseFile : List (List String × String) → List String → List (List String × String)
  | [], _ => []
  | e :: rest, p => if e.1 = p then eraseFile rest p else e :: eraseFile rest p

/-- Read the file at `p`. -/
def fsRead (fs : Fs) (p : List String) : Option String :=
  lookupFile fs.files p

/-- Create or truncate the file at `p` (Rust `File::create` + write). -/
def fsWrite (fs : Fs) (p : List String) (v : String) : Fs :=
  ⟨writeFile fs.files p v⟩

/-- Rust `fs::remove_file`: fails with NotFound when the file is absent. -/
def fsRemoveFile (fs : Fs) (p : List String) : Except IoErr Fs :=
  if (fsRead fs p).isSome then .ok ⟨eraseFile fs.files p⟩ else .error .notFound

/-- `remove_file_ignore_enoent`: delete a file, absorbing NotFound. -/
def remove_file_ignore_enoent (fs : Fs) (p : List String) : Except IoErr Fs :=
  match fsRemoveFile fs p with
  | .ok fs' => .ok fs'
  | .error .notFound => .ok fs
  | .error e => .error e

/-! ## Serialized configs

Modelled from the spec: `SetupNetwork`, `PortForwardConfig` and
`IsolateOption` are defined in `src/network/internal_types.rs`, which is not
part of the provided sources; the fields and their JSON rendering follow the
on-disk layout of the spec (`networks/<network-id>` holds subnets, bridge
name, hash name, isolation mode and dns port; `ports/<network-id>_<container-id>`
holds container id, port mappings, network name/hash, v4/v6 container ip,
v4/v6 subnet, dns port and dns server ips, with `null` for absent options). -/

/-- A JSON value (the fragment used by the config files). -/
inductive Json where
  | null
  | num (n : Nat)
  | str (s : String)
  | arr (elems : List Json)
  | obj (fields : List (String × Json))
deriving Repr

mutual

/-- Compact rendering of a JSON value, as `serde_json::to_writer` emits it
(no whitespace; the strings occurring in the configs need no escaping). -/
def Json.render : Json → String
  | .null => "null"
  | .num n => toString n
  | .str s => "\"" ++ s ++ "\""
  | .arr es => "[" ++ Json.renderList es ++ "]"
  | .obj fs => "\x7b" ++ Json.renderFields fs ++ "\x7d"

/-- Comma-separated rendering of array elements. -/
def Json.renderList : List Json → String
  | [] => ""
  | [x] => x.render
  | x :: y :: xs => x.render ++ "," ++ Json.renderList (y :: xs)

/-- Comma-separated rendering of object fields. -/
def Json.renderFields : List (String × Json) → String
  | [] => ""
  | [(k, v)] => "\"" ++ k ++ "\":" ++ v.render
  | (k, v) :: f :: fs => "\"" ++ k ++ "\":" ++ v.render ++ "," ++ Json.renderFields (f :: fs)

end

/-- Parse the body of a JSON string up to the closing quote (the configs
contain no escape sequences). -/
def parseStringBody : List Char → Option (String × List Char)
  | [] => none
  | c :: rest =>
    if c = '"' then some ("", rest)
    else match parseStringBody rest with
      | some (s, r) => some (String.mk (c :: s.data), r)
      | none => none

/-- Parse a run of digits, accumulating onto `acc`. -/
def parseDigits : List Char → Nat → Nat × List Char
  | [], acc => (acc, [])
  | c :: rest, acc =>
    if c.isDigit then parseDigits rest (acc * 10 + (c.toNat - 48)) else (acc, c :: rest)

mutual

/-- Fuel-indexed parser for a JSON value (compact form, no whitespace). -/
def parseValue : Nat → List Char → Option (Json × List Char)
  | 0, _ => none
  | Nat.succ fuel, cs =>
    match cs with
    | 'n' :: 'u' :: 'l' :: 'l' :: rest => some (.null, rest)
    | '"' :: rest =>
      match parseStringBody rest with
      | some (s, r) => some (.str s, r)
      | none => none
    | '[' :: ']' :: rest => some (.arr [], rest)
    | '[' :: rest =>
      match parseElems fuel rest with
      | some (es, r) => some (.arr es, r)
      | none => none
    | '\x7b' :: '\x7d' :: rest => some (.obj [], rest)
    | '\x7b' :: rest =>
      match parseFields fuel rest with
      | some (fs, r) => some (.obj fs, r)
      | none => none
    | c :: rest =>
      if c.isDigit then
        match parseDigits rest (c.toNat - 48) with
        | (n, r) => some (.num n, r)
      else none
    | [] => none

/-- Parse the elements of a non-empty JSON array after the opening bracket. -/
def parseElems : Nat → List Char → Option (List Json × List Char)
  | 0, _ => none
  | Nat.succ fuel, cs =>
    match parseValue fuel cs with
    | some (j, rest) =>
      match rest with
      | ',' :: rest2 =>
        match parseElems fuel rest2 with
        | some (es, r) => some (j :: es, r)
        | none => none
      | ']' :: rest2 => some ([j], rest2)
      | _ => none
    | none => none

/-- Parse the fields of a non-empty JSON object after the opening brace. -/
def parseFields : Nat → List Char → Option (List (String × Json) × List Char)
  | 0, _ => none
  | Nat.succ fuel, cs =>
    match cs with
    | '"' :: rest =>
      match parseStringBody rest with
      | some (k, rest1) =>
        match rest1 with
        | ':' :: rest2 =>
          match parseValue fuel rest2 with
          | some (v, rest3) =>
            match rest3 with
            | ',' :: rest4 =>
              match parseFields fuel rest4 with
              | some (fs, r) => some ((k, v) :: fs, r)
              | none => none
            | '\x7d' :: rest4 => some ([(k, v)], rest4)
            | _ => none
          | none => none
        | _ => none
      | none => none
    | _ => none

end

/-- `serde_json::from_str`: parse a full string into a JSON value. -/
def parseJsonStr (s : String) : Option Json :=
  match parseValue (s.length + 1) s.data with
  | some (j, []) => some j
  | _ => none

/-- Modelled from the spec: the isolation mode of a network config; only the
`Never` mode appears in the specified behavior. -/
inductive IsolateOption where
  | Never
deriving DecidableEq, Repr

/-- JSON rendering of an isolation mode (serde unit-variant as string). -/
def IsolateOption.render : IsolateOption → String
  | .Never => "Never"

/-- Decode an isolation mode from its serde string form. -/
def IsolateOption.fromString (s : String) : Option IsolateOption :=
  if s = "Never" then some .Never else none

/-- Modelled from the spec: the per-network firewall config persisted under
`networks/<network-id>` (subnets, bridge name, hash name, isolation mode,
dns port), with addresses kept in rendered textual form. -/
structure SetupNetwork where
  subnets : Option (List String)
  bridge_name : String
  network_hash_name : String
  isolation : IsolateOption
  dns_port : Nat
deriving DecidableEq, Repr

/-- JSON form of an optional string (absent options serialize to null). -/
def optStrJson : Option String → Json
  | none => .null
  | some s => .str s

/-- JSON form of a `SetupNetwork`, in serde field order. -/
def SetupNetwork.toJson (c : SetupNetwork) : Json :=
  .obj [("subnets", match c.subnets with
          | none => .null
          | some l => .arr (l.map .str)),
        ("bridge_name", .str c.bridge_name),
        ("network_hash_name", .str c.network_hash_name),
        ("isolation", .str c.isolation.render),
        ("dns_port", .num c.dns_port)]

/-- JSON form of a `PortMapping`. -/
def PortMapping.toJson (pm : PortMapping) : Json :=
  .obj [("host_port", .num pm.host_port),
        ("container_port", .num pm.container_port),
        ("protocol", .str pm.protocol)]

/-- Modelled from the spec: the per-(network, container) port-forward config
persisted under `ports/<network-id>_<container-id>`. -/
structure PortForwardConfig where
  container_id : String
  port_mappings : Option (List PortMapping)
  network_name : String
  network_hash_name : String
  container_ip_v4 : Option String
  subnet_v4 : Option String
  container_ip_v6 : Option String
  subnet_v6 : Option String
  dns_port : Nat
  dns_server_ips : List String
deriving DecidableEq, Repr

/-- JSON form of a `PortForwardConfig`, in serde field order. -/
def PortForwardConfig.toJson (c : PortForwardConfig) : Json :=
  .obj [("container_id", .str c.container_id),
        ("port_mappings", match c.port_mappings with
          | none => .null
          | some pms => .arr (pms.map PortMapping.toJson)),
        ("network_name", .str c.network_name),
        ("network_hash_name", .str c.network_hash_name),
        ("container_ip_v4", optStrJson c.container_ip_v4),
        ("subnet_v4", optStrJson c.subnet_v4),
        ("container_ip_v6", optStrJson c.container_ip_v6),
        ("subnet_v6", optStrJson c.subnet_v6),
        ("dns_port", .num c.dns_port),
        ("dns_server_ips", .arr (c.dns_server_ips.map .str))]

/-- Look up a field of a JSON object's field list. -/
def jLookup : List (String × Json) → String → Option Json
  | [], _ => none
  | (k, v) :: rest, key => if k = key then some v else jLookup rest key

/-- Decode a JSON string value. -/
def jStr : Json → Option String
  | .str s => some s
  | _ => none

/-- Decode a JSON number value. -/
def jNum : Json → Option Nat
  | .num n => some n
  | _ => none

/-- Decode an optional JSON string (null for the absent case). -/
def jOptStr : Json → Option (Option String)
  | .null => some none
  | .str s => some (some s)
  | _ => none

/-- Decode a JSON array of strings. -/
def jStrList : List Json → Option (List String)
  | [] => some []
  | j :: rest => do
    let s ← jStr j
    let l ← jStrList rest
    pure (s :: l)

/-- Decode a `PortMapping` from JSON. -/
def PortMapping.fromJson : Json → Option PortMapping
  | .obj fields => do
    let hp ← (jLookup fields "host_port").bind jNum
    let cp ← (jLookup fields "container_port").bind jNum
    let pr ← (jLookup fields "protocol").bind jStr
    pure ⟨hp, cp, pr⟩
  | _ => none

/-- Decode a list of `PortMapping`s from JSON values. -/
def jPortMappingList : List Json → Option (List PortMapping)
  | [] => some []
  | j :: rest => do
    let pm ← PortMapping.fromJson j
    let l ← jPortMappingList rest
    pure (pm :: l)

/-- Decode a `SetupNetwork` from JSON. -/
def SetupNetwork.fromJson : Json → Option SetupNetwork
  | .obj fields => do
    let subs ← match jLookup fields "subnets" with
      | some .null => some none
      | some (.arr es) => (jStrList es).map some
      | _ => none
    let bn ← (jLookup fields "bridge_name").bind jStr
    let hn ← (jLookup fields "network_hash_name").bind jStr
    let iso ← ((jLookup fields "isolation").bind jStr).bind IsolateOption.fromString
    let dp ← (jLookup fields "dns_port").bind jNum
    pure ⟨subs, bn, hn, iso, dp⟩
  | _ => none

/-- Decode a `PortForwardConfig` from JSON. -/
def PortForwardConfig.fromJson : Json → Option PortForwardConfig
  | .obj fields => do
    let cid ← (jLookup fields "container_id").bind jStr
    let pms ← match jLookup fields "port_mappings" with
      | some .null => some none
      | some (.arr es) => (jPortMappingList es).map some
      | _ => none
    let nn ← (jLookup fields "network_name").bind jStr
    let hn ← (jLookup fields "network_hash_name").bind jStr
    let ip4 ← (jLookup fields "container_ip_v4").bind jOptStr
    let sub4 ← (jLookup fields "subnet_v4").bind jOptStr
    let ip6 ← (jLookup fields "container_ip_v6").bind jOptStr
    let sub6 ← (jLookup fields "subnet_v6").bind jOptStr
    let dp ← (jLookup fields "dns_port").bind jNum
    let dns ← match jLookup fields "dns_server_ips" with
      | some (.arr es) => jStrList es
      | _ => none
    pure ⟨cid, pms, nn, hn, ip4, sub4, ip6, sub6, dp, dns⟩
  | _ => none

/-! ## The config store of `src/firewall/state.rs` -/

def FIREWALL_DIR : String := "firewall"
def FIREWALL_DRIVER_FILE : String := "firewall-driver"
def NETWORK_CONF_DIR : String := "networks"
def PORT_CONF_DIR : String := "ports"

/-- The three config file paths of `get_file_paths`. -/
structure FilePaths where
  fw_driver_file : List String
  net_conf_file : List String
  port_conf_file : List String
deriving DecidableEq, Repr

/-- `get_file_paths` (directory creation is implicit in the model): with
empty ids the directory paths themselves are returned, used to walk the dir
for all configs. -/
def get_file_paths (config_dir network_id container_id : String) : FilePaths :=
  let path := [config_dir, FIREWALL_DIR]
  let net_conf_file := path ++ [NETWORK_CONF_DIR]
  let port_conf_file := path ++ [PORT_CONF_DIR]
  if ¬network_id = "" ∧ ¬container_id = "" then
    { fw_driver_file := path ++ [FIREWALL_DRIVER_FILE],
      net_conf_file := net_conf_file ++ [network_id],
      port_conf_file := port_conf_file ++ [network_id ++ "_" ++ container_id] }
  else
    { fw_driver_file := path ++ [FIREWALL_DRIVER_FILE],
      net_conf_file := net_conf_file,
      port_conf_file := port_conf_file }

/-- `write_fw_config`: always (over)write the driver file and the port
config, write the network config only when no file exists yet
(`create_new`, absorbing `AlreadyExists`). -/
def write_fw_config (config_dir network_id container_id fw_driver : String)
    (net_conf : SetupNetwork) (port_conf : PortForwardConfig) (fs : Fs) : Except StErr Fs :=
  let paths := get_file_paths config_dir network_id container_id
  let fs := fsWrite fs paths.fw_driver_file fw_driver
  let fs := if (fsRead fs paths.net_conf_file).isSome then fs
            else fsWrite fs paths.net_conf_file (SetupNetwork.toJson net_conf).render
  let fs := fsWrite fs paths.port_conf_file (PortForwardConfig.toJson port_conf).render
  .ok fs

/-- `remove_fw_config`: delete the port config, and the network config only
on a complete teardown; deleting an absent file is a success. -/
def remove_fw_config (config_dir network_id container_id : String) (complete_teardown : Bool)
    (fs : Fs) : Except StErr Fs := do
  let paths := get_file_paths config_dir network_id container_id
  let fs ← match remove_file_ignore_enoent fs paths.port_conf_file with
    | .ok fs => Except.ok fs
    | .error e => Except.error (.io e)
  if complete_teardown then
    match remove_file_ignore_enoent fs paths.net_conf_file with
    | .ok fs => Except.ok fs
    | .error e => Except.error (.io e)
  else Except.ok fs

/-- The decoded contents of the whole config directory. -/
structure FirewallConfig where
  driver : String
  net_confs : List SetupNetwork
  port_confs : List PortForwardConfig
deriving DecidableEq, Repr

/-- Contents of the files directly under directory `dir`, in filesystem
order. -/
def filesUnder (fs : Fs) (dir : List String) : List String :=
  (fs.files.filter (fun f => f.1.length == dir.length + 1 && f.1.take dir.length == dir)).map
    (fun f => f.2)

/-- Decode every entry, failing on the first undecodable one
(`read_dir_conf`'s deserialization). -/
def decodeAll {α : Type} (decode : String → Option α) : List String → Except StErr (List α)
  | [] => .ok []
  | c :: rest =>
    match decode c with
    | some v =>
      match decodeAll decode rest with
      | .ok l => .ok (v :: l)
      | .error e => .error e
    | none => .error .deser

/-- `read_dir_conf`: read and decode every config file under `dir`. -/
def read_dir_conf {α : Type} (decode : String → Option α) (fs : Fs) (dir : List String) :
    Except StErr (List α) :=
  decodeAll decode (filesUnder fs dir)

/-- Decode one network config file. -/
def decodeSetupNetwork (s : String) : Option SetupNetwork :=
  (parseJsonStr s).bind SetupNetwork.fromJson

/-- Decode one port config file. -/
def decodePortForwardConfig (s : String) : Option PortForwardConfig :=
  (parseJsonStr s).bind PortForwardConfig.fromJson

/-- `read_fw_config`: read the driver name and every config under both
subdirectories. -/
def read_fw_config (config_dir : String) (fs : Fs) : Except StErr FirewallConfig := do
  let paths := get_file_paths config_dir "" ""
  let driver ← match fsRead fs paths.fw_driver_file with
    | some d => Except.ok d
    | none => Except.error (.io .notFound)
  let net_confs ← read_dir_conf decodeSetupNetwork fs paths.net_conf_file
  let port_confs ← read_dir_conf decodePortForwardConfig fs paths.port_conf_file
  Except.ok ⟨driver, net_confs, port_confs⟩

/-! ## Lemmas about the state dictionary -/

theorem lookupRules_update_self (l : List ((String × String) × List String)) (t c : String)
    (rs : List String) :
    lookupRules (updateRules l t c rs) t c = (lookupRules l t c).map (fun _ => rs) := by
  induction l with
  | nil => simp [lookupRules, updateRules]
  | cons e rest ih =>
    by_cases h : e.1.1 = t ∧ e.1.2 = c
    · simp [lookupRules, updateRules, h]
    · simp [lookupRules, updateRules, h, ih]

theorem lookupRules_update_other (l : List ((String × String) × List String)) (t c t' c' : String)
    (rs : List String) (h : ¬(t' = t ∧ c' = c)) :
    lookupRules (updateRules l t c rs) t' c' = lookupRules l t' c' := by
  induction l with
  | nil => simp [lookupRules, updateRules]
  | cons e rest ih =>
    by_cases he : e.1.1 = t ∧ e.1.2 = c
    · have hf : ¬(t = t' ∧ c = c') := by
        rintro ⟨h1, h2⟩; exact h ⟨h1.symm, h2.symm⟩
      simp [lookupRules, updateRules, he, he.1, he.2, hf]
    · simp only [updateRules, if_neg he, lookupRules]
      by_cases he' : e.1.1 = t' ∧ e.1.2 = c'
      · simp [he']
      · simp [he', ih]

theorem lookupRules_append (l₁ l₂ : List ((String × String) × List String)) (t c : String) :
    lookupRules (l₁ ++ l₂) t c =
      match lookupRules l₁ t c with
      | some rs => some rs
      | none => lookupRules l₂ t c := by
  induction l₁ with
  | nil => simp [lookupRules]
  | cons e rest ih =>
    by_cases h : e.1.1 = t ∧ e.1.2 = c
    · simp [lookupRules, h]
    · simp [lookupRules, h, ih]

theorem getRules_setRules_self (s : IptState) (t c : String) (rs0 rs : List String)
    (h : getRules s t c = some rs0) :
    getRules (setRules s t c rs) t c = some rs := by
  simp [getRules, setRules, lookupRules_update_self] at h ⊢
  simp [h]

theorem getRules_setRules_other (s : IptState) (t c t' c' : String) (rs : List String)
    (h : ¬(t' = t ∧ c' = c)) :
    getRules (setRules s t c rs) t' c' = getRules s t' c' := by
  simp [getRules, setRules, lookupRules_update_other _ _ _ _ _ _ h]

theorem getRules_addChain_self (s : IptState) (t c : String) (h : getRules s t c = none) :
    getRules (addChain s t c) t c = some [] := by
  simp [getRules, addChain, lookupRules_append] at h ⊢
  simp [h, lookupRules]

theorem getRules_addChain_other (s : IptState) (t c t' c' : String)
    (h : ¬(t' = t ∧ c' = c)) :
    getRules (addChain s t c) t' c' = getRules s t' c' := by
  simp only [getRules, addChain, lookupRules_append]
  have : lookupRules [((t, c), ([] : List String))] t' c' = none := by
    have h' : ¬(t = t' ∧ c = c') := by
      rintro ⟨h1, h2⟩; exact h ⟨h1.symm, h2.symm⟩
    simp [lookupRules, h']
  cases hx : lookupRules s.chains t' c' <;> simp [hx, this]

theorem chain_exists_eq (s : IptState) (t c : String) :
    chain_exists s t c = (getRules s t c).isSome := by
  show ((s.chains.filter (fun e => e.1.1 == t)).map (fun e => e.1.2)).any (fun i => i == c)
      = (lookupRules s.chains t c).isSome
  induction s.chains with
  | nil => simp [lookupRules]
  | cons e rest ih =>
    by_cases h1 : e.1.1 = t
    · by_cases h2 : e.1.2 = c
      · simp [lookupRules, h1, h2]
      · simp [lookupRules, h1, h2, ih]
    · simp [lookupRules, h1, ih]

theorem ruleExists_eq (s : IptState) (t c r : String) (rs : List String)
    (h : getRules s t c = some rs) :
    ruleExists s t c r = rs.contains r := by
  simp [ruleExists, h]

/-- The preservation of every chain other than `(t, c)`. -/
def Frame (s s' : IptState) (t c : String) : Prop :=
  ∀ t' c', ¬(t' = t ∧ c' = c) → getRules s' t' c' = getRules s t' c'

theorem Frame.refl (s : IptState) (t c : String) : Frame s s t c :=
  fun _ _ _ => rfl

theorem append_unique_spec (s : IptState) (t c r : String) (rs : List String)
    (h : getRules s t c = some rs) :
    ∃ s', append_unique s t c r = .ok s' ∧
      getRules s' t c = some (if r ∈ rs then rs else rs ++ [r]) ∧ Frame s s' t c := by
  by_cases hm : r ∈ rs
  · refine ⟨s, ?_, by simp [h, hm], Frame.refl s t c⟩
    have : ruleExists s t c r = true := by
      rw [ruleExists_eq s t c r rs h]; simpa using hm
    simp [append_unique, this]
  · have hex : ruleExists s t c r = false := by
      rw [ruleExists_eq s t c r rs h]; simpa using hm
    refine ⟨setRules s t c (rs ++ [r]), ?_, ?_, ?_⟩
    · simp [append_unique, hex, ipt_append, h]
    · rw [getRules_setRules_self s t c rs _ h]; simp [hm]
    · exact fun t' c' hne => getRules_setRules_other s t c t' c' _ hne

theorem add_chain_unique_spec (s : IptState) (t c : String) :
    ∃ s', add_chain_unique s t c = .ok s' ∧
      getRules s' t c = some ((getRules s t c).getD []) ∧ Frame s s' t c := by
  cases hx : getRules s t c with
  | some rs =>
    have : chain_exists s t c = true := by rw [chain_exists_eq, hx]; rfl
    exact ⟨s, by simp [add_chain_unique, this], by simp [hx], Frame.refl s t c⟩
  | none =>
    have : chain_exists s t c = false := by rw [chain_exists_eq, hx]; rfl
    refine ⟨addChain s t c, ?_, ?_, ?_⟩
    · simp [add_chain_unique, this, ipt_new_chain, hx]
    · rw [getRules_addChain_self s t c hx]; simp
    · exact fun t' c' hne => getRules_addChain_other s t c t' c' hne

theorem insert_front_spec (s : IptState) (t c r : String) (rs : List String)
    (h : getRules s t c = some rs) :
    ∃ s', ipt_insert s t c r 1 = .ok s' ∧
      getRules s' t c = some (r :: rs) ∧ Frame s s' t c := by
  refine ⟨setRules s t c (r :: rs), ?_, ?_, ?_⟩
  · simp [ipt_insert, h]
  · exact getRules_setRules_self s t c rs _ h
  · exact fun t' c' hne => getRules_setRules_other s t c t' c' _ hne

theorem remove_if_rule_exists_spec (s : IptState) (t c r : String) (rs : List String)
    (h : getRules s t c = some rs) :
    ∃ s', remove_if_rule_exists s t c r = .ok s' ∧
      getRules s' t c = some (rs.erase r) ∧ Frame s s' t c := by
  by_cases hm : r ∈ rs
  · have hex : ruleExists s t c r = true := by
      rw [ruleExists_eq s t c r rs h]; simpa using hm
    have hc : rs.contains r = true := by
      rw [← ruleExists_eq s t c r rs h]; exact hex
    refine ⟨setRules s t c (rs.erase r), ?_, ?_, ?_⟩
    · simp [remove_if_rule_exists, hex, ipt_delete, h, hc, hm]
    · exact getRules_setRules_self s t c rs _ h
    · exact fun t' c' hne => getRules_setRules_other s t c t' c' _ hne
  · have hex : ruleExists s t c r = false := by
      rw [ruleExists_eq s t c r rs h]; simpa using hm
    refine ⟨s, by simp [remove_if_rule_exists, hex], ?_, Frame.refl s t c⟩
    rw [List.erase_of_not_mem hm, h]

/-! ## Claim C1: the concrete port-forward scenario -/

/-- C1: a setup-port-forward call with container id `123` on network `name`
(hash `hash`), one mapping host-port 8080 to container-port 80, container IP
`10.0.0.2` and subnet `10.0.0.0/24`, produces exactly one rule in the
host-port DNAT entry chain matching destination port 8080 and jumping to
`NETAVARK-DN-hash`; in that chain two mark-setting rules for port 8080 (one
from `10.0.0.0/24`, one from `127.0.0.1`) and one DNAT rule rewriting to
`10.0.0.2:80`; and exactly one POSTROUTING rule with source `10.0.0.2`
carrying the comment naming network `name` and container `123`.  Tearing the
same configuration down removes exactly those rules and no others. -/
theorem claim_C1_port_forward_scenario :
    setup_port_forward ⟨some [⟨"10.0.0.0/24"⟩], none⟩ "123" [⟨8080, 80, "tcp"⟩] "name" "hash"
        ⟨some ["10.0.0.2"]⟩
        ⟨[(("nat", "PREROUTING"), []), (("nat", "OUTPUT"), []), (("nat", "POSTROUTING"), [])]⟩
      = .ok ([],
        ⟨[(("nat", "PREROUTING"), ["-j NETAVARK-HOSTPORT-DNAT -m addrtype --dst-type LOCAL"]),
          (("nat", "OUTPUT"), ["-j NETAVARK-HOSTPORT-DNAT -m addrtype --dst-type LOCAL"]),
          (("nat", "POSTROUTING"),
            ["-j NETAVARK-HOSTPORT-MASQ ",
             "-j NETAVARK-hash -s 10.0.0.2 -m comment --comment 'name: name id: 123'"]),
          (("nat", "NETAVARK-HOSTPORT-DNAT"),
            ["-j NETAVARK-DN-hash -p tcp -m multiport --destination-ports 8080 -m comment --comment 'dnat name: name id: 123'"]),
          (("nat", "NETAVARK-HOSTPORT-SETMARK"), ["-j MARK  --set-xmark 0x2000/0x2000"]),
          (("nat", "NETAVARK-HOSTPORT-MASQ"),
            ["-j MASQUERADE -m comment --comment 'netavark portfw masq mark' -m mark --mark 0x2000/0x2000"]),
          (("nat", "NETAVARK-DN-hash"),
            ["-j NETAVARK-HOSTPORT-SETMARK -s 10.0.0.0/24 -p tcp --dport 8080",
             "-j NETAVARK-HOSTPORT-SETMARK -s 127.0.0.1 -p tcp --dport 8080",
             "-j DNAT -p tcp --to-destination 10.0.0.2:80 --destination-port 8080"])]⟩)
    ∧ List.count "-j NETAVARK-hash -s 10.0.0.2 -m comment --comment 'name: name id: 123'"
        ["-j NETAVARK-HOSTPORT-MASQ ",
         "-j NETAVARK-hash -s 10.0.0.2 -m comment --comment 'name: name id: 123'"] = 1
    ∧ teardown_port_forward
        ⟨⟨some [⟨"10.0.0.0/24"⟩], none⟩, "123", [⟨8080, 80, "tcp"⟩], "name", "hash",
          ⟨some ["10.0.0.2"]⟩, false⟩
        ⟨[(("nat", "PREROUTING"), ["-j NETAVARK-HOSTPORT-DNAT -m addrtype --dst-type LOCAL"]),
          (("nat", "OUTPUT"), ["-j NETAVARK-HOSTPORT-DNAT -m addrtype --dst-type LOCAL"]),
          (("nat", "POSTROUTING"),
            ["-j NETAVARK-HOSTPORT-MASQ ",
             "-j NETAVARK-hash -s 10.0.0.2 -m comment --comment 'name: name id: 123'"]),
          (("nat", "NETAVARK-HOSTPORT-DNAT"),
            ["-j NETAVARK-DN-hash -p tcp -m multiport --destination-ports 8080 -m comment --comment 'dnat name: name id: 123'"]),
          (("nat", "NETAVARK-HOSTPORT-SETMARK"), ["-j MARK  --set-xmark 0x2000/0x2000"]),
          (("nat", "NETAVARK-HOSTPORT-MASQ"),
            ["-j MASQUERADE -m comment --comment 'netavark portfw masq mark' -m mark --mark 0x2000/0x2000"]),
          (("nat", "NETAVARK-DN-hash"),
            ["-j NETAVARK-HOSTPORT-SETMARK -s 10.0.0.0/24 -p tcp --dport 8080",
             "-j NETAVARK-HOSTPORT-SETMARK -s 127.0.0.1 -p tcp --dport 8080",
             "-j DNAT -p tcp --to-destination 10.0.0.2:80 --destination-port 8080"])]⟩
      = .ok
        ⟨[(("nat", "PREROUTING"), ["-j NETAVARK-HOSTPORT-DNAT -m addrtype --dst-type LOCAL"]),
          (("nat", "OUTPUT"), ["-j NETAVARK-HOSTPORT-DNAT -m addrtype --dst-type LOCAL"]),
          (("nat", "POSTROUTING"), ["-j NETAVARK-HOSTPORT-MASQ "]),
          (("nat", "NETAVARK-HOSTPORT-DNAT"), []),
          (("nat", "NETAVARK-HOSTPORT-SETMARK"), ["-j MARK  --set-xmark 0x2000/0x2000"]),
          (("nat", "NETAVARK-HOSTPORT-MASQ"),
            ["-j MASQUERADE -m comment --comment 'netavark portfw masq mark' -m mark --mark 0x2000/0x2000"]),
          (("nat", "NETAVARK-DN-hash"), [])]⟩ := by
  refine ⟨rfl, by decide, rfl⟩

/-! ## Claim C2: accept/masquerade order in the per-network NAT chain -/

/-- C2 counterexample: for a network with two subnets, after `setup_network`
on a fresh state the per-network NAT chain is [accept₁, masquerade, accept₂]:
the masquerade rule is not the last rule of the chain, and the second
subnet's accept rule is not followed by the masquerade rule. -/
theorem claim_C2_counterexample :
    setup_network ⟨some [⟨"10.0.0.0/24"⟩, ⟨"10.0.1.0/24"⟩], none⟩ "hash"
        ⟨[(("filter", "FORWARD"), [])]⟩
      = .ok
        ⟨[(("filter", "FORWARD"),
            ["-m comment --comment 'netavark firewall plugin rules' -j NETAVARK_FORWARD"]),
          (("nat", "NETAVARK-hash"),
            ["-d 10.0.0.0/24 -j ACCEPT", "! -d 224.0.0.0/4 -j MASQUERADE",
             "-d 10.0.1.0/24 -j ACCEPT"]),
          (("filter", "NETAVARK_FORWARD"),
            ["-d 10.0.0.0/24 -m conntrack --ctstate RELATED,ESTABLISHED -j ACCEPT",
             "-s 10.0.0.0/24 -j ACCEPT",
             "-d 10.0.1.0/24 -m conntrack --ctstate RELATED,ESTABLISHED -j ACCEPT",
             "-s 10.0.1.0/24 -j ACCEPT"])]⟩
    ∧ ["-d 10.0.0.0/24 -j ACCEPT", "! -d 224.0.0.0/4 -j MASQUERADE",
       "-d 10.0.1.0/24 -j ACCEPT"].getLast? = some "-d 10.0.1.0/24 -j ACCEPT"
    ∧ ("-d 10.0.1.0/24 -j ACCEPT" : String) ≠ masq_rule := by
  refine ⟨rfl, rfl, by decide⟩

/-- The masquerade rule never coincides with a subnet accept rule. -/
theorem masq_ne_accept (sub : String) : masq_rule ≠ nat_accept_rule sub := by
  intro h
  have := congrArg String.data h
  simp [masq_rule, nat_accept_rule, ACCEPT_JUMP, String.data_append] at this

/-- C2 (amended): for every network with exactly one subnet, starting from a
state where the per-network NAT chain does not exist (and the filter
FORWARD chain exists), after `setup_network` the per-network NAT chain holds
exactly the subnet-scoped accept rule followed by the
masquerade-all-except-multicast rule; the masquerade rule is last. -/
theorem claim_C2_amended (sub hash : String) (iface : Option String) (s : IptState)
    (F : List String)
    (hFwd : getRules s "filter" "FORWARD" = some F)
    (hAbsent : getRules s "nat" ("NETAVARK-" ++ hash) = none) :
    ∃ s', setup_network ⟨some [⟨sub⟩], iface⟩ hash s = .ok s' ∧
      getRules s' "nat" ("NETAVARK-" ++ hash)
        = some [nat_accept_rule sub, masq_rule] := by
  have hpre : ("NETAVARK" ++ "-" : String) ++ hash = "NETAVARK-" ++ hash := rfl
  -- chain creation
  obtain ⟨s1, e1, g1, f1⟩ := add_chain_unique_spec s "nat" ("NETAVARK-" ++ hash)
  rw [hAbsent] at g1
  -- accept rule
  obtain ⟨s2, e2, g2, f2⟩ := append_unique_spec s1 "nat" ("NETAVARK-" ++ hash)
    (nat_accept_rule sub) [] g1
  simp only [List.not_mem_nil, if_false, List.nil_append] at g2
  -- masquerade rule
  obtain ⟨s3, e3, g3, f3⟩ := append_unique_spec s2 "nat" ("NETAVARK-" ++ hash)
    masq_rule [nat_accept_rule sub] g2
  rw [if_neg (by simpa using masq_ne_accept sub)] at g3
  -- private filter chain
  obtain ⟨s4, e4, g4, f4⟩ := add_chain_unique_spec s3 "filter" "NETAVARK_FORWARD"
  have hc4 : getRules s4 "nat" ("NETAVARK-" ++ hash)
      = some [nat_accept_rule sub, masq_rule] := by
    rw [f4 _ _ (by simp)]; exact g3
  have hfwd4 : ∃ F', getRules s4 "filter" "FORWARD" = some F' := by
    rw [f4 _ _ (by simp), f3 _ _ (by simp), f2 _ _ (by simp), f1 _ _ (by simp)]
    exact ⟨F, hFwd⟩
  obtain ⟨F', hF'⟩ := hfwd4
  -- the FORWARD front insertion (guarded)
  have step5 : ∃ s5, (if ruleExists s4 "filter" "FORWARD" netavark_fw_rule
        then Except.ok s4
        else ipt_insert s4 "filter" "FORWARD" netavark_fw_rule 1) = .ok s5 ∧
      getRules s5 "nat" ("NETAVARK-" ++ hash) = some [nat_accept_rule sub, masq_rule] ∧
      ∃ P, getRules s5 "filter" "NETAVARK_FORWARD" = some P := by
    by_cases hr : ruleExists s4 "filter" "FORWARD" netavark_fw_rule
    · exact ⟨s4, by simp [hr], hc4, ⟨_, g4⟩⟩
    · obtain ⟨s5, e5, g5, f5⟩ := insert_front_spec s4 "filter" "FORWARD" netavark_fw_rule F' hF'
      refine ⟨s5, ?_, ?_, ?_⟩
      · rw [if_neg hr]; exact e5
      · rw [f5 _ _ (by simp)]; exact hc4
      · exact ⟨_, by rw [f5 _ _ (by simp)]; exact g4⟩
  obtain ⟨s5, e5, g5, P, hP⟩ := step5
  -- the two filter allow rules
  obtain ⟨s6, e6, g6, f6⟩ := append_unique_spec s5 "filter" "NETAVARK_FORWARD"
    (allow_incoming_rule sub) P hP
  obtain ⟨s7, e7, g7, f7⟩ := append_unique_spec s6 "filter" "NETAVARK_FORWARD"
    (allow_outgoing_rule sub) _ g6
  refine ⟨s7, ?_, ?_⟩
  · simp only [setup_network, setup_network_loop, setup_network_subnet, hpre, NAT,
      FILTER_JUMP, PRIV_CHAIN_NAME, bind, Except.bind, e1, e2, e3, e4]
    by_cases hr : ruleExists s4 "filter" "FORWARD" netavark_fw_rule = true
    · simp only [if_pos hr] at e5 ⊢
      obtain rfl : s4 = s5 := by simpa using e5
      simp only [e6, e7]
    · simp only [if_neg hr] at e5 ⊢
      simp only [e5, e6, e7]
  · rw [f7 _ _ (by simp), f6 _ _ (by simp)]
    exact g5

/-- Witness for the amended C2 at a concrete input. -/
theorem claim_C2_amended_witness :
    ∃ s', setup_network ⟨some [⟨"10.0.0.0/24"⟩], none⟩ "hash"
        ⟨[(("filter", "FORWARD"), [])]⟩ = .ok s' ∧
      getRules s' "nat" ("NETAVARK-" ++ "hash")
        = some [nat_accept_rule "10.0.0.0/24", masq_rule] :=
  claim_C2_amended "10.0.0.0/24" "hash" none ⟨[(("filter", "FORWARD"), [])]⟩ []
    (by decide) (by decide)

/-! ## Claim C8: missing container IP / missing subnet list -/

/-- C8: a setup-port-forward call whose container IPv4 address list is
absent fails with the configuration error "no container ip provided", and
one whose network subnet list is absent fails with "no network address
provided", instead of applying the per-port rules. -/
theorem claim_C8_missing_config_errors (network : Network) (container_id : String)
    (port_mappings : List PortMapping) (network_name id_network_hash : String)
    (options : PerNetworkOptions) (s : IptState) :
    (options.static_ips = none →
      setup_port_forward network container_id port_mappings network_name id_network_hash
        options s = .error (.config "no container ip provided")) ∧
    (∀ ip rest, options.static_ips = some (ip :: rest) → network.subnets = none →
      setup_port_forward network container_id port_mappings network_name id_network_hash
        options s = .error (.config "no network address provided")) := by
  constructor
  · intro h
    simp [setup_port_forward, h, bind, Except.bind]
  · intro ip rest h1 h2
    simp [setup_port_forward, h1, h2, bind, Except.bind]

/-- Witness for C8 at concrete inputs. -/
theorem claim_C8_missing_config_errors_witness :
    setup_port_forward ⟨none, none⟩ "123" [] "name" "hash" ⟨none⟩ ⟨[]⟩
      = .error (.config "no container ip provided") ∧
    setup_port_forward ⟨none, none⟩ "123" [] "name" "hash" ⟨some ["10.0.0.2"]⟩ ⟨[]⟩
      = .error (.config "no network address provided") :=
  ⟨(claim_C8_missing_config_errors ⟨none, none⟩ "123" [] "name" "hash" ⟨none⟩ ⟨[]⟩).1 rfl,
   (claim_C8_missing_config_errors ⟨none, none⟩ "123" [] "name" "hash"
      ⟨some ["10.0.0.2"]⟩ ⟨[]⟩).2 "10.0.0.2" [] rfl rfl⟩

/-! ## Claim C9: present-but-empty address/subnet lists panic -/

/-- C9: a setup-port-forward call whose static IP list is present but empty,
and a teardown-port-forward call whose subnet list is present but empty,
index element 0 of an empty list and hence panic instead of returning the
configuration error; the operations are total only when these lists, when
present, are non-empty. -/
theorem claim_C9_empty_list_panics :
    setup_port_forward ⟨some [⟨"10.0.0.0/24"⟩], none⟩ "123" [] "name" "hash" ⟨some []⟩ ⟨[]⟩
      = .error (.panic "index out of bounds: the len is 0 but the index is 0") ∧
    setup_port_forward ⟨some [], none⟩ "123" [] "name" "hash" ⟨some ["10.0.0.2"]⟩ ⟨[]⟩
      = .error (.panic "index out of bounds: the len is 0 but the index is 0") ∧
    teardown_port_forward
        ⟨⟨some [], none⟩, "123", [], "name", "hash", ⟨some ["10.0.0.2"]⟩, false⟩ ⟨[]⟩
      = .error (.panic "index out of bounds: the len is 0 but the index is 0") ∧
    teardown_port_forward
        ⟨⟨some [⟨"10.0.0.0/24"⟩], none⟩, "123", [], "name", "hash", ⟨some []⟩, false⟩ ⟨[]⟩
      = .error (.panic "index out of bounds: the len is 0 but the index is 0") :=
  ⟨rfl, rfl, rfl, rfl⟩

/-! ## Claim C10: every per-port rule is protocol tcp -/

/-- C10: for every port mapping — whatever protocol the mapping records —
each of the four per-port rules generated by `setup_port_forward` (and
matched for removal by `teardown_port_forward`) contains the protocol match
"-p tcp"; the mapping's protocol field is never consulted. -/
theorem claim_C10_per_port_rules_tcp_only (dn_chain network_name container_id subnet ip :
    String) (i : PortMapping) :
    (∃ a b, hostport_dnat_rule dn_chain network_name container_id i
      = a ++ ("-p tcp" ++ b)) ∧
    (∃ a b, setmark_network_rule subnet i = a ++ ("-p tcp" ++ b)) ∧
    (∃ a b, setmark_localhost_rule i = a ++ ("-p tcp" ++ b)) ∧
    (∃ a b, container_dest_rule ip i = a ++ ("-p tcp" ++ b)) := by
  refine ⟨⟨"-j " ++ dn_chain ++ " ",
      " -m multiport --destination-ports " ++ toString i.host_port ++ " "
        ++ comment_dn_network_cid network_name container_id, ?_⟩,
    ⟨"-j " ++ HOSTPORT_SETMARK_CHAIN ++ " -s " ++ subnet ++ " ",
      " --dport " ++ toString i.host_port, ?_⟩,
    ⟨"-j " ++ HOSTPORT_SETMARK_CHAIN ++ " -s 127.0.0.1 ",
      " --dport " ++ toString i.host_port, ?_⟩,
    ⟨"-j " ++ DNAT_JUMP ++ " ",
      " --to-destination " ++ ip ++ ":" ++ toString i.container_port
        ++ " --destination-port " ++ toString i.host_port, ?_⟩⟩
  · have h1 : (" -p tcp -m multiport --destination-ports " : String)
        = " " ++ "-p tcp" ++ " -m multiport --destination-ports " := rfl
    simp only [hostport_dnat_rule, h1, String.append_assoc]
  · have h1 : (" -p tcp --dport " : String) = " " ++ "-p tcp" ++ " --dport " := rfl
    simp only [setmark_network_rule, h1, String.append_assoc]
  · have h1 : (" -s 127.0.0.1 -p tcp --dport " : String)
        = " -s 127.0.0.1 " ++ "-p tcp" ++ " --dport " := rfl
    simp only [setmark_localhost_rule, h1, String.append_assoc]
  · have h1 : (" -p tcp --to-destination " : String)
        = " " ++ "-p tcp" ++ " --to-destination " := rfl
    simp only [container_dest_rule, h1, String.append_assoc]

/-! ## Claim C6: write-then-read round trip of the network config -/

set_option maxRecDepth 100000 in
/-- C6: writing the network config with subnets [10.0.0.0/24], bridge
`bridge`, hash `hash`, isolation Never and dns port 53 puts exactly the
serialized JSON
`{"subnets":["10.0.0.0/24"],"bridge_name":"bridge","network_hash_name":"hash","isolation":"Never","dns_port":53}`
on disk, and reading back with `read_fw_config` decodes a value structurally
equal to the one written. -/
theorem claim_C6_write_read_round_trip :
    write_fw_config "cfg" "abc" "123" "iptables"
        ⟨some ["10.0.0.0/24"], "bridge", "hash", .Never, 53⟩
        ⟨"123", none, "name", "hash", some "10.0.0.2", some "10.0.0.0/24", none, none, 53, []⟩
        ⟨[]⟩
      = .ok ⟨[(["cfg", "firewall", "firewall-driver"], "iptables"),
          (["cfg", "firewall", "networks", "abc"],
           "\x7b\"subnets\":[\"10.0.0.0/24\"],\"bridge_name\":\"bridge\",\"network_hash_name\":\"hash\",\"isolation\":\"Never\",\"dns_port\":53\x7d"),
          (["cfg", "firewall", "ports", "abc_123"],
           "\x7b\"container_id\":\"123\",\"port_mappings\":null,\"network_name\":\"name\",\"network_hash_name\":\"hash\",\"container_ip_v4\":\"10.0.0.2\",\"subnet_v4\":\"10.0.0.0/24\",\"container_ip_v6\":null,\"subnet_v6\":null,\"dns_port\":53,\"dns_server_ips\":[]\x7d")]⟩
    ∧ read_fw_config "cfg"
        ⟨[(["cfg", "firewall", "firewall-driver"], "iptables"),
          (["cfg", "firewall", "networks", "abc"],
           "\x7b\"subnets\":[\"10.0.0.0/24\"],\"bridge_name\":\"bridge\",\"network_hash_name\":\"hash\",\"isolation\":\"Never\",\"dns_port\":53\x7d"),
          (["cfg", "firewall", "ports", "abc_123"],
           "\x7b\"container_id\":\"123\",\"port_mappings\":null,\"network_name\":\"name\",\"network_hash_name\":\"hash\",\"container_ip_v4\":\"10.0.0.2\",\"subnet_v4\":\"10.0.0.0/24\",\"container_ip_v6\":null,\"subnet_v6\":null,\"dns_port\":53,\"dns_server_ips\":[]\x7d")]⟩
      = .ok ⟨"iptables",
          [⟨some ["10.0.0.0/24"], "bridge", "hash", .Never, 53⟩],
          [⟨"123", none, "name", "hash", some "10.0.0.2", some "10.0.0.0/24", none, none,
            53, []⟩]⟩ :=
  ⟨rfl, rfl⟩

/-! ## Filesystem lemmas for C4 and C5 -/

theorem lookupFile_write_self (l : List (List String × String)) (p : List String) (v : String) :
    lookupFile (writeFile l p v) p = some v := by
  induction l with
  | nil => simp [lookupFile, writeFile]
  | cons e rest ih =>
    by_cases h : e.1 = p
    · simp [lookupFile, writeFile, h]
    · simp [lookupFile, writeFile, h, ih]

theorem lookupFile_write_other (l : List (List String × String)) (p q : List String)
    (v : String) (h : ¬q = p) :
    lookupFile (writeFile l p v) q = lookupFile l q := by
  have h' : ¬p = q := fun hq => h hq.symm
  induction l with
  | nil => simp [lookupFile, writeFile, h']
  | cons e rest ih =>
    by_cases he : e.1 = p
    · have hne : ¬e.1 = q := by rw [he]; exact h'
      simp [lookupFile, writeFile, he, h', hne]
    · simp [lookupFile, writeFile, he, ih]

theorem lookupFile_erase_self (l : List (List String × String)) (p : List String) :
    lookupFile (eraseFile l p) p = none := by
  induction l with
  | nil => simp [lookupFile, eraseFile]
  | cons e rest ih =>
    by_cases h : e.1 = p
    · simp [eraseFile, h, ih]
    · simp [lookupFile, eraseFile, h, ih]

theorem lookupFile_erase_other (l : List (List String × String)) (p q : List String)
    (h : ¬q = p) :
    lookupFile (eraseFile l p) q = lookupFile l q := by
  induction l with
  | nil => simp [lookupFile, eraseFile]
  | cons e rest ih =>
    by_cases he : e.1 = p
    · have hpq : ¬(p = q) := fun hq => h hq.symm
      simp [lookupFile, eraseFile, he, hpq, ih]
    · simp [lookupFile, eraseFile, he, ih]

theorem fsRead_write_self (fs : Fs) (p : List String) (v : String) :
    fsRead (fsWrite fs p v) p = some v :=
  lookupFile_write_self fs.files p v

theorem fsRead_write_other (fs : Fs) (p q : List String) (v : String) (h : ¬q = p) :
    fsRead (fsWrite fs p v) q = fsRead fs q :=
  lookupFile_write_other fs.files p q v h

/-- `remove_file_ignore_enoent` always succeeds, leaves the target absent and
every other path untouched. -/
theorem remove_file_ignore_enoent_spec (fs : Fs) (p : List String) :
    ∃ fs', remove_file_ignore_enoent fs p = .ok fs' ∧ fsRead fs' p = none ∧
      ∀ q, ¬q = p → fsRead fs' q = fsRead fs q := by
  by_cases h : (fsRead fs p).isSome
  · refine ⟨⟨eraseFile fs.files p⟩, ?_, ?_, ?_⟩
    · simp [remove_file_ignore_enoent, fsRemoveFile, h]
    · exact lookupFile_erase_self fs.files p
    · exact fun q hq => lookupFile_erase_other fs.files p q hq
  · refine ⟨fs, ?_, ?_, fun q _ => rfl⟩
    · simp [remove_file_ignore_enoent, fsRemoveFile, h]
    · exact Option.not_isSome_iff_eq_none.mp h

/-! ## Claim C4: first-writer-wins for the network config, always-overwrite
for the port config -/

/-- C4: two `write_fw_config` calls for the same network id (with a network
config file initially absent) leave the network config equal to the first
write's content, while the port config for the (network id, container id)
pair of the second call equals the second write's content; the driver file
and port config are always (over)written, the network config only when no
file exists yet. -/
theorem claim_C4_first_writer_wins (config_dir network_id cid1 cid2 drv1 drv2 : String)
    (nc1 nc2 : SetupNetwork) (pc1 pc2 : PortForwardConfig) (fs : Fs)
    (hn : ¬network_id = "") (hc1 : ¬cid1 = "") (hc2 : ¬cid2 = "")
    (habsent : fsRead fs [config_dir, "firewall", "networks", network_id] = none) :
    ∃ fs1 fs2,
      write_fw_config config_dir network_id cid1 drv1 nc1 pc1 fs = .ok fs1 ∧
      write_fw_config config_dir network_id cid2 drv2 nc2 pc2 fs1 = .ok fs2 ∧
      fsRead fs2 [config_dir, "firewall", "networks", network_id]
        = some (SetupNetwork.toJson nc1).render ∧
      fsRead fs2 [config_dir, "firewall", "ports", network_id ++ "_" ++ cid2]
        = some (PortForwardConfig.toJson pc2).render := by
  have hpaths1 : get_file_paths config_dir network_id cid1 =
      { fw_driver_file := [config_dir, "firewall", "firewall-driver"],
        net_conf_file := [config_dir, "firewall", "networks", network_id],
        port_conf_file := [config_dir, "firewall", "ports", network_id ++ "_" ++ cid1] } := by
    simp [get_file_paths, FIREWALL_DIR, FIREWALL_DRIVER_FILE, NETWORK_CONF_DIR, PORT_CONF_DIR,
      hn, hc1]
  have hpaths2 : get_file_paths config_dir network_id cid2 =
      { fw_driver_file := [config_dir, "firewall", "firewall-driver"],
        net_conf_file := [config_dir, "firewall", "networks", network_id],
        port_conf_file := [config_dir, "firewall", "ports", network_id ++ "_" ++ cid2] } := by
    simp [get_file_paths, FIREWALL_DIR, FIREWALL_DRIVER_FILE, NETWORK_CONF_DIR, PORT_CONF_DIR,
      hn, hc2]
  have hdn : ¬([config_dir, "firewall", "networks", network_id]
      = [config_dir, "firewall", "firewall-driver"]) := by
    intro h
    have := congrArg List.length h
    simp at this
  have hnp : ∀ x, ¬([config_dir, "firewall", "networks", network_id]
      = [config_dir, "firewall", "ports", x]) := by
    intro x h
    simp at h
  -- first write
  have hread1 : fsRead (fsWrite fs [config_dir, "firewall", "firewall-driver"] drv1)
      [config_dir, "firewall", "networks", network_id] = none := by
    rw [fsRead_write_other _ _ _ _ hdn]
    exact habsent
  refine ⟨fsWrite (fsWrite (fsWrite fs [config_dir, "firewall", "firewall-driver"] drv1)
      [config_dir, "firewall", "networks", network_id] (SetupNetwork.toJson nc1).render)
      [config_dir, "firewall", "ports", network_id ++ "_" ++ cid1]
      (PortForwardConfig.toJson pc1).render,
    fsWrite (fsWrite (fsWrite (fsWrite (fsWrite fs
      [config_dir, "firewall", "firewall-driver"] drv1)
      [config_dir, "firewall", "networks", network_id] (SetupNetwork.toJson nc1).render)
      [config_dir, "firewall", "ports", network_id ++ "_" ++ cid1]
      (PortForwardConfig.toJson pc1).render)
      [config_dir, "firewall", "firewall-driver"] drv2)
      [config_dir, "firewall", "ports", network_id ++ "_" ++ cid2]
      (PortForwardConfig.toJson pc2).render,
    ?_, ?_, ?_, ?_⟩
  · rw [write_fw_config, hpaths1]
    simp only [hread1, Option.isSome_none, Bool.false_eq_true, if_false]
  · rw [write_fw_config, hpaths2]
    have hr2 : fsRead (fsWrite (fsWrite (fsWrite (fsWrite fs
          [config_dir, "firewall", "firewall-driver"] drv1)
          [config_dir, "firewall", "networks", network_id] (SetupNetwork.toJson nc1).render)
          [config_dir, "firewall", "ports", network_id ++ "_" ++ cid1]
          (PortForwardConfig.toJson pc1).render)
          [config_dir, "firewall", "firewall-driver"] drv2)
        [config_dir, "firewall", "networks", network_id]
        = some (SetupNetwork.toJson nc1).render := by
      rw [fsRead_write_other _ _ _ _ hdn, fsRead_write_other _ _ _ _ (hnp _),
        fsRead_write_self]
    simp only [hr2, Option.isSome_some, if_true]
  · rw [fsRead_write_other _ _ _ _ (hnp _), fsRead_write_other _ _ _ _ hdn,
      fsRead_write_other _ _ _ _ (hnp _), fsRead_write_self]
  · rw [fsRead_write_self]

/-- Witness for C4 at concrete inputs with different contents. -/
theorem claim_C4_first_writer_wins_witness :
    ∃ fs1 fs2,
      write_fw_config "cfg" "abc" "123" "iptables"
          ⟨some ["10.0.0.0/24"], "bridge", "hash", .Never, 53⟩
          ⟨"123", none, "name", "hash", none, none, none, none, 53, []⟩ ⟨[]⟩ = .ok fs1 ∧
      write_fw_config "cfg" "abc" "123" "iptables"
          ⟨none, "bridge2", "hash2", .Never, 54⟩
          ⟨"123", none, "name2", "hash2", none, none, none, none, 54, []⟩ fs1 = .ok fs2 ∧
      fsRead fs2 ["cfg", "firewall", "networks", "abc"]
        = some (SetupNetwork.toJson ⟨some ["10.0.0.0/24"], "bridge", "hash", .Never, 53⟩).render ∧
      fsRead fs2 ["cfg", "firewall", "ports", "abc" ++ "_" ++ "123"]
        = some (PortForwardConfig.toJson
            ⟨"123", none, "name2", "hash2", none, none, none, none, 54, []⟩).render :=
  claim_C4_first_writer_wins "cfg" "abc" "123" "123" "iptables" "iptables"
    ⟨some ["10.0.0.0/24"], "bridge", "hash", .Never, 53⟩ ⟨none, "bridge2", "hash2", .Never, 54⟩
    ⟨"123", none, "name", "hash", none, none, none, none, 53, []⟩
    ⟨"123", none, "name2", "hash2", none, none, none, none, 54, []⟩ ⟨[]⟩
    (by decide) (by decide) (by decide) rfl

/-! ## Claim C5: removal behavior of the config store -/

/-- C5: `remove_fw_config` always succeeds (deleting an absent file is a
success), always deletes the port config entry of the (network id, container
id) pair, and deletes the network config entry exactly when
`complete_teardown` is true — after a partial teardown the network config is
untouched. -/
theorem claim_C5_remove_fw_config (config_dir network_id container_id : String)
    (complete_teardown : Bool) (fs : Fs)
    (hn : ¬network_id = "") (hc : ¬container_id = "") :
    ∃ fs', remove_fw_config config_dir network_id container_id complete_teardown fs = .ok fs' ∧
      fsRead fs' [config_dir, "firewall", "ports", network_id ++ "_" ++ container_id]
        = none ∧
      (complete_teardown = true →
        fsRead fs' [config_dir, "firewall", "networks", network_id] = none) ∧
      (complete_teardown = false →
        fsRead fs' [config_dir, "firewall", "networks", network_id]
          = fsRead fs [config_dir, "firewall", "networks", network_id]) := by
  have hpaths : get_file_paths config_dir network_id container_id =
      { fw_driver_file := [config_dir, "firewall", "firewall-driver"],
        net_conf_file := [config_dir, "firewall", "networks", network_id],
        port_conf_file := [config_dir, "firewall", "ports",
          network_id ++ "_" ++ container_id] } := by
    simp [get_file_paths, FIREWALL_DIR, FIREWALL_DRIVER_FILE, NETWORK_CONF_DIR, PORT_CONF_DIR,
      hn, hc]
  have hpn : ¬([config_dir, "firewall", "ports", network_id ++ "_" ++ container_id]
      = [config_dir, "firewall", "networks", network_id]) := by
    intro h
    simp at h
  have hnp : ¬([config_dir, "firewall", "networks", network_id]
      = [config_dir, "firewall", "ports", network_id ++ "_" ++ container_id]) := by
    intro h
    simp at h
  obtain ⟨fsA, eA, gA, fA⟩ := remove_file_ignore_enoent_spec fs
    [config_dir, "firewall", "ports", network_id ++ "_" ++ container_id]
  cases complete_teardown with
  | false =>
    refine ⟨fsA, ?_, gA, by simp, fun _ => ?_⟩
    · rw [remove_fw_config, hpaths]
      simp only [eA, bind, Except.bind, if_false, Bool.false_eq_true]
    · exact fA _ hnp
  | true =>
    obtain ⟨fsB, eB, gB, fB⟩ := remove_file_ignore_enoent_spec fsA
      [config_dir, "firewall", "networks", network_id]
    refine ⟨fsB, ?_, ?_, fun _ => gB, by simp⟩
    · rw [remove_fw_config, hpaths]
      simp only [eA, eB, bind, Except.bind, if_true]
    · rw [fB _ hpn]
      exact gA

/-- Witness for C5 at a concrete input (complete teardown, both files
present beforehand). -/
theorem claim_C5_remove_fw_config_witness :
    ∃ fs', remove_fw_config "cfg" "abc" "123" true
        ⟨[(["cfg", "firewall", "networks", "abc"], "x"),
          (["cfg", "firewall", "ports", "abc_123"], "y")]⟩ = .ok fs' ∧
      fsRead fs' ["cfg", "firewall", "ports", "abc" ++ "_" ++ "123"] = none ∧
      (true = true → fsRead fs' ["cfg", "firewall", "networks", "abc"] = none) ∧
      (true = false → fsRead fs' ["cfg", "firewall", "networks", "abc"]
        = fsRead ⟨[(["cfg", "firewall", "networks", "abc"], "x"),
            (["cfg", "firewall", "ports", "abc_123"], "y")]⟩
            ["cfg", "firewall", "networks", "abc"]) :=
  claim_C5_remove_fw_config "cfg" "abc" "123" true
    ⟨[(["cfg", "firewall", "networks", "abc"], "x"),
      (["cfg", "firewall", "ports", "abc_123"], "y")]⟩ (by decide) (by decide)

/-! ## Claim C3: the FORWARD front-insertion invariant -/

/-- A sequence of `setup_network` calls, each a (network, hash name) pair. -/
def run_setups : List (Network × String) → IptState → Except FwError IptState
  | [], s => .ok s
  | call :: rest, s =>
    match setup_network call.1 call.2 s with
    | .ok s' => run_setups rest s'
    | .error e => .error e

/-- One subnet iteration of `setup_network` succeeds whenever the FORWARD
chain exists, and front-inserts the netavark jump rule into FORWARD exactly
when it is not yet present. -/
theorem setup_network_subnet_forward (hash : String) (s : IptState) (sub : Subnet)
    (F : List String) (hF : getRules s "filter" "FORWARD" = some F) :
    ∃ s', setup_network_subnet hash s sub = .ok s' ∧
      getRules s' "filter" "FORWARD"
        = some (if netavark_fw_rule ∈ F then F else netavark_fw_rule :: F) := by
  obtain ⟨s1, e1, g1, f1⟩ := add_chain_unique_spec s "nat" ("NETAVARK" ++ "-" ++ hash)
  obtain ⟨s2, e2, g2, f2⟩ := append_unique_spec s1 "nat" ("NETAVARK" ++ "-" ++ hash)
    (nat_accept_rule sub.subnet) _ g1
  obtain ⟨s3, e3, g3, f3⟩ := append_unique_spec s2 "nat" ("NETAVARK" ++ "-" ++ hash)
    masq_rule _ g2
  obtain ⟨s4, e4, g4, f4⟩ := add_chain_unique_spec s3 "filter" "NETAVARK_FORWARD"
  have hF4 : getRules s4 "filter" "FORWARD" = some F := by
    rw [f4 _ _ (by simp), f3 _ _ (by simp), f2 _ _ (by simp), f1 _ _ (by simp)]
    exact hF
  have step5 : ∃ s5, (if ruleExists s4 "filter" "FORWARD" netavark_fw_rule
        then Except.ok s4
        else ipt_insert s4 "filter" "FORWARD" netavark_fw_rule 1) = .ok s5 ∧
      getRules s5 "filter" "FORWARD"
        = some (if netavark_fw_rule ∈ F then F else netavark_fw_rule :: F) ∧
      ∃ P, getRules s5 "filter" "NETAVARK_FORWARD" = some P := by
    have hre : ruleExists s4 "filter" "FORWARD" netavark_fw_rule
        = F.contains netavark_fw_rule := ruleExists_eq s4 _ _ _ F hF4
    by_cases hm : netavark_fw_rule ∈ F
    · have : ruleExists s4 "filter" "FORWARD" netavark_fw_rule = true := by
        rw [hre]; simpa using hm
      refine ⟨s4, by simp [this], by rw [if_pos hm]; exact hF4, ⟨_, g4⟩⟩
    · have hfalse : ruleExists s4 "filter" "FORWARD" netavark_fw_rule = false := by
        rw [hre]; simpa using hm
      obtain ⟨s5, e5, g5, f5⟩ := insert_front_spec s4 "filter" "FORWARD" netavark_fw_rule F hF4
      refine ⟨s5, ?_, ?_, ?_⟩
      · rw [if_neg (by simp [hfalse])]; exact e5
      · rw [if_neg hm]; exact g5
      · exact ⟨_, by rw [f5 _ _ (by simp)]; exact g4⟩
  obtain ⟨s5, e5, g5, P, hP⟩ := step5
  obtain ⟨s6, e6, g6, f6⟩ := append_unique_spec s5 "filter" "NETAVARK_FORWARD"
    (allow_incoming_rule sub.subnet) P hP
  obtain ⟨s7, e7, g7, f7⟩ := append_unique_spec s6 "filter" "NETAVARK_FORWARD"
    (allow_outgoing_rule sub.subnet) _ g6
  refine ⟨s7, ?_, ?_⟩
  · simp only [setup_network_subnet, NAT, FILTER_JUMP, PRIV_CHAIN_NAME, bind, Except.bind,
      e1, e2, e3, e4]
    by_cases hr : ruleExists s4 "filter" "FORWARD" netavark_fw_rule = true
    · simp only [if_pos hr] at e5 ⊢
      obtain rfl : s4 = s5 := by simpa using e5
      simp only [e6, e7]
    · simp only [if_neg hr] at e5 ⊢
      simp only [e5, e6, e7]
  · rw [f7 _ _ (by simp), f6 _ _ (by simp)]
    exact g5

/-- The subnet loop of `setup_network`: afterwards the netavark jump rule
heads the FORWARD chain whenever at least one subnet was processed. -/
theorem setup_network_loop_forward (hash : String) (subs : List Subnet) (s : IptState)
    (F : List String) (hF : getRules s "filter" "FORWARD" = some F) :
    ∃ s', setup_network_loop hash subs s = .ok s' ∧
      getRules s' "filter" "FORWARD"
        = some (if subs = [] then F
            else if netavark_fw_rule ∈ F then F else netavark_fw_rule :: F) := by
  induction subs generalizing s F with
  | nil => exact ⟨s, rfl, by simpa using hF⟩
  | cons sub rest ih =>
    obtain ⟨s1, e1, g1⟩ := setup_network_subnet_forward hash s sub F hF
    obtain ⟨s', e', g'⟩ := ih s1 _ g1
    refine ⟨s', ?_, ?_⟩
    · simp only [setup_network_loop, e1, e']
    · rw [g']
      have hmem : netavark_fw_rule ∈ (if netavark_fw_rule ∈ F then F
          else netavark_fw_rule :: F) := by
        by_cases hm : netavark_fw_rule ∈ F
        · simp [hm]
        · simp [hm]
      simp [hmem]

/-- `setup_network` succeeds whenever the FORWARD chain exists, and
afterwards the netavark jump rule heads FORWARD whenever the network had at
least one subnet. -/
theorem setup_network_forward (net : Network) (hash : String) (s : IptState)
    (F : List String) (hF : getRules s "filter" "FORWARD" = some F) :
    ∃ s', setup_network net hash s = .ok s' ∧
      getRules s' "filter" "FORWARD"
        = some (if net.subnets.getD [] = [] then F
            else if netavark_fw_rule ∈ F then F else netavark_fw_rule :: F) := by
  cases hsub : net.subnets with
  | none => exact ⟨s, by simp [setup_network, hsub], by simpa using hF⟩
  | some subs =>
    obtain ⟨s', e', g'⟩ := setup_network_loop_forward hash subs s F hF
    exact ⟨s', by simp [setup_network, hsub, e'], by simpa using g'⟩

/-- Running any sequence of `setup_network` calls from a state whose FORWARD
rules are `R` (without the jump rule) or `netavark_fw_rule :: R` keeps
FORWARD in one of those two shapes; any call with a non-empty subnet list
establishes `netavark_fw_rule :: R`, and that shape persists. -/
theorem run_setups_forward (R : List String) (hnR : netavark_fw_rule ∉ R)
    (calls : List (Network × String)) (s : IptState) (G : List String)
    (hG : getRules s "filter" "FORWARD" = some G)
    (hshape : G = R ∨ G = netavark_fw_rule :: R) :
    ∃ s' G', run_setups calls s = .ok s' ∧ getRules s' "filter" "FORWARD" = some G' ∧
      (G' = R ∨ G' = netavark_fw_rule :: R) ∧
      ((∃ c ∈ calls, c.1.subnets.getD [] ≠ []) → G' = netavark_fw_rule :: R) ∧
      (G = netavark_fw_rule :: R → G' = netavark_fw_rule :: R) := by
  induction calls generalizing s G with
  | nil =>
    refine ⟨s, G, rfl, hG, hshape, ?_, fun h => h⟩
    rintro ⟨c, hc, -⟩
    exact absurd hc (List.not_mem_nil c)
  | cons call rest ih =>
    obtain ⟨s1, e1, g1⟩ := setup_network_forward call.1 call.2 s G hG
    have hG1shape : (if call.1.subnets.getD [] = [] then G
          else if netavark_fw_rule ∈ G then G else netavark_fw_rule :: G)
        = G ∨ (if call.1.subnets.getD [] = [] then G
          else if netavark_fw_rule ∈ G then G else netavark_fw_rule :: G)
        = netavark_fw_rule :: R := by
      by_cases hempty : call.1.subnets.getD [] = []
      · exact Or.inl (by simp [hempty])
      · refine Or.inr ?_
        rw [if_neg hempty]
        rcases hshape with h | h
        · subst h
          rw [if_neg hnR]
        · subst h
          rw [if_pos (List.mem_cons_self _ _)]
    have hshape1 : (if call.1.subnets.getD [] = [] then G
          else if netavark_fw_rule ∈ G then G else netavark_fw_rule :: G) = R
        ∨ (if call.1.subnets.getD [] = [] then G
          else if netavark_fw_rule ∈ G then G else netavark_fw_rule :: G)
        = netavark_fw_rule :: R := by
      rcases hG1shape with h | h
      · rw [h]; exact hshape
      · exact Or.inr h
    obtain ⟨s', G', e', g', hsh', heff', hpers'⟩ := ih s1 _ g1 hshape1
    refine ⟨s', G', ?_, g', hsh', ?_, ?_⟩
    · simp only [run_setups, e1, e']
    · rintro ⟨c, hc, hcne⟩
      rcases List.mem_cons.mp hc with hhead | htail
      · apply hpers'
        subst hhead
        rcases hG1shape with h | h
        · rcases hshape with hR | hnv
          · rw [if_neg hcne, hR, if_neg hnR] at h
            exact absurd h (List.cons_ne_self _ _)
          · rw [h]; exact hnv
        · exact h
      · exact heff' ⟨c, htail, hcne⟩
    · intro hGnv
      apply hpers'
      rcases hG1shape with h | h
      · rw [h]; exact hGnv
      · exact h

/-- C3: after any sequence of `setup_network` calls — as long as one of them
concerns a network with a non-empty subnet list — starting from a state
whose built-in filter FORWARD chain does not contain the netavark jump
rule, the FORWARD chain contains exactly one copy of the jump rule into the
private forwarding chain, and that copy is at position 1. -/
theorem claim_C3_forward_front_insertion (calls : List (Network × String)) (s : IptState)
    (R : List String)
    (hF : getRules s "filter" "FORWARD" = some R)
    (hnR : netavark_fw_rule ∉ R)
    (heff : ∃ c ∈ calls, c.1.subnets.getD [] ≠ []) :
    ∃ s', run_setups calls s = .ok s' ∧
      getRules s' "filter" "FORWARD" = some (netavark_fw_rule :: R) ∧
      (netavark_fw_rule :: R).count netavark_fw_rule = 1 := by
  obtain ⟨s', G', e', g', -, heff', -⟩ :=
    run_setups_forward R hnR calls s R hF (Or.inl rfl)
  refine ⟨s', e', ?_, ?_⟩
  · rw [g', heff' heff]
  · rw [List.count_cons_self, List.count_eq_zero_of_not_mem hnR]

/-- Witness for C3: one setup call on a fresh FORWARD chain. -/
theorem claim_C3_forward_front_insertion_witness :
    ∃ s', run_setups [(⟨some [⟨"10.0.0.0/24"⟩], none⟩, "hash")]
        ⟨[(("filter", "FORWARD"), [])]⟩ = .ok s' ∧
      getRules s' "filter" "FORWARD" = some (netavark_fw_rule :: []) ∧
      (netavark_fw_rule :: ([] : List String)).count netavark_fw_rule = 1 :=
  claim_C3_forward_front_insertion [(⟨some [⟨"10.0.0.0/24"⟩], none⟩, "hash")]
    ⟨[(("filter", "FORWARD"), [])]⟩ [] (by decide) (by decide)
    ⟨(⟨some [⟨"10.0.0.0/24"⟩], none⟩, "hash"), List.mem_singleton.mpr rfl, by decide⟩

/-! ## Claim C7: teardown_network -/

theorem Frame.trans {s1 s2 s3 : IptState} {t c : String}
    (h12 : Frame s1 s2 t c) (h23 : Frame s2 s3 t c) : Frame s1 s3 t c :=
  fun t' c' h => (h23 t' c' h).trans (h12 t' c' h)

/-- One subnet iteration of `teardown_network` with `complete_teardown`
false: both allow rules are present afterwards and no rule is ever
removed. -/
theorem teardown_network_subnet_false (s : IptState) (sub : Subnet) (P : List String)
    (hP : getRules s "filter" "NETAVARK_FORWARD" = some P) :
    ∃ s' P', teardown_network_subnet false s sub = .ok s' ∧
      getRules s' "filter" "NETAVARK_FORWARD" = some P' ∧
      (∀ x ∈ P, x ∈ P') ∧
      allow_incoming_rule sub.subnet ∈ P' ∧ allow_outgoing_rule sub.subnet ∈ P' ∧
      Frame s s' "filter" "NETAVARK_FORWARD" := by
  obtain ⟨s1, e1, g1, f1⟩ := append_unique_spec s "filter" "NETAVARK_FORWARD"
    (allow_incoming_rule sub.subnet) P hP
  obtain ⟨s2, e2, g2, f2⟩ := append_unique_spec s1 "filter" "NETAVARK_FORWARD"
    (allow_outgoing_rule sub.subnet) _ g1
  have hmono1 : ∀ x ∈ P, x ∈ (if allow_incoming_rule sub.subnet ∈ P then P
      else P ++ [allow_incoming_rule sub.subnet]) := by
    intro x hx
    by_cases hi : allow_incoming_rule sub.subnet ∈ P <;> simp [hi, hx]
  have hinc1 : allow_incoming_rule sub.subnet ∈ (if allow_incoming_rule sub.subnet ∈ P then P
      else P ++ [allow_incoming_rule sub.subnet]) := by
    by_cases hi : allow_incoming_rule sub.subnet ∈ P <;> simp [hi]
  refine ⟨s2, _, ?_, g2, ?_, ?_, ?_, Frame.trans f1 f2⟩
  · simp only [teardown_network_subnet, FILTER_JUMP, PRIV_CHAIN_NAME, bind, Except.bind,
      e1, e2, Bool.false_eq_true, if_false]
  · intro x hx
    by_cases ho : allow_outgoing_rule sub.subnet ∈ (if allow_incoming_rule sub.subnet ∈ P
        then P else P ++ [allow_incoming_rule sub.subnet]) <;>
      simp [ho, hmono1 x hx]
  · by_cases ho : allow_outgoing_rule sub.subnet ∈ (if allow_incoming_rule sub.subnet ∈ P
        then P else P ++ [allow_incoming_rule sub.subnet]) <;>
      simp [ho, hinc1]
  · by_cases ho : allow_outgoing_rule sub.subnet ∈ (if allow_incoming_rule sub.subnet ∈ P
        then P else P ++ [allow_incoming_rule sub.subnet]) <;>
      simp [ho]

/-- One subnet iteration of `teardown_network` with `complete_teardown`
true on a duplicate-free chain: both allow rules are absent afterwards, the
chain stays duplicate-free, and any rule present afterwards was either
present before or is one of the two allow rules. -/
theorem teardown_network_subnet_true (s : IptState) (sub : Subnet) (P : List String)
    (hP : getRules s "filter" "NETAVARK_FORWARD" = some P) (hnd : P.Nodup) :
    ∃ s' P', teardown_network_subnet true s sub = .ok s' ∧
      getRules s' "filter" "NETAVARK_FORWARD" = some P' ∧
      P'.Nodup ∧
      allow_incoming_rule sub.subnet ∉ P' ∧ allow_outgoing_rule sub.subnet ∉ P' ∧
      (∀ x ∈ P', x ∈ P ∨ x = allow_incoming_rule sub.subnet
        ∨ x = allow_outgoing_rule sub.subnet) ∧
      Frame s s' "filter" "NETAVARK_FORWARD" := by
  obtain ⟨s1, e1, g1, f1⟩ := append_unique_spec s "filter" "NETAVARK_FORWARD"
    (allow_incoming_rule sub.subnet) P hP
  obtain ⟨s2, e2, g2, f2⟩ := append_unique_spec s1 "filter" "NETAVARK_FORWARD"
    (allow_outgoing_rule sub.subnet) _ g1
  obtain ⟨s3, e3, g3, f3⟩ := remove_if_rule_exists_spec s2 "filter" "NETAVARK_FORWARD"
    (allow_incoming_rule sub.subnet) _ g2
  obtain ⟨s4, e4, g4, f4⟩ := remove_if_rule_exists_spec s3 "filter" "NETAVARK_FORWARD"
    (allow_outgoing_rule sub.subnet) _ g3
  set inc := allow_incoming_rule sub.subnet with hinc_def
  set out := allow_outgoing_rule sub.subnet with hout_def
  set P1 := if inc ∈ P then P else P ++ [inc] with hP1
  set P2 := if out ∈ P1 then P1 else P1 ++ [out] with hP2
  have hnd1 : P1.Nodup := by
    rw [hP1]
    by_cases hi : inc ∈ P
    · simpa [hi] using hnd
    · simpa [hi, List.nodup_append, hi] using hnd
  have hnd2 : P2.Nodup := by
    rw [hP2]
    by_cases ho : out ∈ P1
    · simpa [ho] using hnd1
    · simpa [ho, List.nodup_append, ho] using hnd1
  have hinc2 : inc ∈ P2 := by
    have hinc1 : inc ∈ P1 := by
      rw [hP1]; by_cases hi : inc ∈ P <;> simp [hi]
    rw [hP2]; by_cases ho : out ∈ P1 <;> simp [ho, hinc1]
  have hout2 : out ∈ P2 := by
    rw [hP2]; by_cases ho : out ∈ P1 <;> simp [ho]
  have hnd3 : (P2.erase inc).Nodup := hnd2.erase inc
  have hinc3 : inc ∉ P2.erase inc := by
    intro hmem
    exact absurd ((hnd2.mem_erase_iff).mp hmem).1 (by simp)
  have hout4 : out ∉ (P2.erase inc).erase out := by
    intro hmem
    exact absurd ((hnd3.mem_erase_iff).mp hmem).1 (by simp)
  have hinc4 : inc ∉ (P2.erase inc).erase out :=
    fun hmem => hinc3 (List.erase_subset _ _ hmem)
  have hbound : ∀ x ∈ (P2.erase inc).erase out, x ∈ P ∨ x = inc ∨ x = out := by
    intro x hx
    have hx2 : x ∈ P2 := List.erase_subset _ _ (List.erase_subset _ _ hx)
    rw [hP2] at hx2
    by_cases ho : out ∈ P1
    · rw [if_pos ho] at hx2
      rw [hP1] at hx2
      by_cases hi : inc ∈ P
      · rw [if_pos hi] at hx2
        exact Or.inl hx2
      · rw [if_neg hi] at hx2
        rcases List.mem_append.mp hx2 with h | h
        · exact Or.inl h
        · exact Or.inr (Or.inl (by simpa using h))
    · rw [if_neg ho] at hx2
      rcases List.mem_append.mp hx2 with h | h
      · rw [hP1] at h
        by_cases hi : inc ∈ P
        · rw [if_pos hi] at h
          exact Or.inl h
        · rw [if_neg hi] at h
          rcases List.mem_append.mp h with h' | h'
          · exact Or.inl h'
          · exact Or.inr (Or.inl (by simpa using h'))
      · exact Or.inr (Or.inr (by simpa using h))
  refine ⟨s4, _, ?_, g4, (hnd3.erase out), hinc4, hout4, hbound,
    Frame.trans f1 (Frame.trans f2 (Frame.trans f3 f4))⟩
  simp only [teardown_network_subnet, FILTER_JUMP, PRIV_CHAIN_NAME, bind, Except.bind,
    e1, e2, e3, e4, if_true]

/-- The subnet loop of `teardown_network` with `complete_teardown` false:
every subnet's allow rules are present afterwards, no existing rule is
removed, and only the private forwarding chain is touched. -/
theorem teardown_network_loop_false (subs : List Subnet) (s : IptState) (P : List String)
    (hP : getRules s "filter" "NETAVARK_FORWARD" = some P) :
    ∃ s' P', teardown_network_loop false subs s = .ok s' ∧
      getRules s' "filter" "NETAVARK_FORWARD" = some P' ∧
      (∀ x ∈ P, x ∈ P') ∧
      (∀ sub ∈ subs, allow_incoming_rule sub.subnet ∈ P'
        ∧ allow_outgoing_rule sub.subnet ∈ P') ∧
      Frame s s' "filter" "NETAVARK_FORWARD" := by
  induction subs generalizing s P with
  | nil =>
    refine ⟨s, P, rfl, hP, fun x hx => hx, ?_, Frame.refl _ _ _⟩
    intro sub hsub
    exact absurd hsub (List.not_mem_nil sub)
  | cons b rest ih =>
    obtain ⟨s1, P1, e1, g1, hmono1, hinc1, hout1, f1⟩ :=
      teardown_network_subnet_false s b P hP
    obtain ⟨s', P', e', g', hmono', hall', f'⟩ := ih s1 P1 g1
    refine ⟨s', P', ?_, g', fun x hx => hmono' x (hmono1 x hx), ?_, Frame.trans f1 f'⟩
    · simp only [teardown_network_loop, e1, e']
    · intro sub hsub
      rcases List.mem_cons.mp hsub with hhead | htail
      · subst hhead
        exact ⟨hmono' _ hinc1, hmono' _ hout1⟩
      · exact hall' sub htail

/-- The subnet loop of `teardown_network` with `complete_teardown` true on a
duplicate-free chain: every subnet's allow rules are absent afterwards. -/
theorem teardown_network_loop_true (subs : List Subnet) (s : IptState) (P : List String)
    (hP : getRules s "filter" "NETAVARK_FORWARD" = some P) (hnd : P.Nodup) :
    ∃ s' P', teardown_network_loop true subs s = .ok s' ∧
      getRules s' "filter" "NETAVARK_FORWARD" = some P' ∧
      P'.Nodup ∧
      (∀ sub ∈ subs, allow_incoming_rule sub.subnet ∉ P'
        ∧ allow_outgoing_rule sub.subnet ∉ P') ∧
      (∀ x ∈ P', x ∈ P ∨ ∃ sub ∈ subs, x = allow_incoming_rule sub.subnet
        ∨ x = allow_outgoing_rule sub.subnet) ∧
      Frame s s' "filter" "NETAVARK_FORWARD" := by
  induction subs generalizing s P with
  | nil =>
    refine ⟨s, P, rfl, hP, hnd, ?_, fun x hx => Or.inl hx, Frame.refl _ _ _⟩
    intro sub hsub
    exact absurd hsub (List.not_mem_nil sub)
  | cons b rest ih =>
    obtain ⟨s1, P1, e1, g1, hnd1, hbinc1, hbout1, hbound1, f1⟩ :=
      teardown_network_subnet_true s b P hP hnd
    obtain ⟨s', P', e', g', hnd', habsent', hbound', f'⟩ := ih s1 P1 g1 hnd1
    have habs_b : allow_incoming_rule b.subnet ∉ P'
        ∧ allow_outgoing_rule b.subnet ∉ P' := by
      constructor
      · intro hmem
        rcases hbound' _ hmem with h1 | ⟨c, hc, hcase⟩
        · exact hbinc1 h1
        · rcases hcase with hcase | hcase
          · exact (habsent' c hc).1 (hcase ▸ hmem)
          · exact (habsent' c hc).2 (hcase ▸ hmem)
      · intro hmem
        rcases hbound' _ hmem with h1 | ⟨c, hc, hcase⟩
        · exact hbout1 h1
        · rcases hcase with hcase | hcase
          · exact (habsent' c hc).1 (hcase ▸ hmem)
          · exact (habsent' c hc).2 (hcase ▸ hmem)
    refine ⟨s', P', ?_, g', hnd', ?_, ?_, Frame.trans f1 f'⟩
    · simp only [teardown_network_loop, e1, e']
    · intro sub hsub
      rcases List.mem_cons.mp hsub with hhead | htail
      · subst hhead
        exact habs_b
      · exact habsent' sub htail
    · intro x hx
      rcases hbound' x hx with h1 | ⟨c, hc, hcase⟩
      · rcases hbound1 x h1 with h | h | h
        · exact Or.inl h
        · exact Or.inr ⟨b, List.mem_cons_self b rest, Or.inl h⟩
        · exact Or.inr ⟨b, List.mem_cons_self b rest, Or.inr h⟩
      · exact Or.inr ⟨c, List.mem_cons_of_mem b hc, hcase⟩

/-- C7: `teardown_network` always succeeds when the private forwarding
chain exists; when `complete_teardown` is false both subnet allow rules are
present afterwards (the re-append), when it is true they are removed (on a
duplicate-free chain, the shape this program maintains); and in either case
nothing in the nat table — in particular the per-network NAT chain — is
touched. -/
theorem claim_C7_teardown_network (net : Network) (complete_teardown : Bool) (s : IptState)
    (P : List String)
    (hP : getRules s "filter" "NETAVARK_FORWARD" = some P) (hnd : P.Nodup) :
    ∃ s', teardown_network net complete_teardown s = .ok s' ∧
      (complete_teardown = false → ∀ sub ∈ net.subnets.getD [],
        allow_incoming_rule sub.subnet ∈ (getRules s' "filter" "NETAVARK_FORWARD").getD []
        ∧ allow_outgoing_rule sub.subnet
            ∈ (getRules s' "filter" "NETAVARK_FORWARD").getD []) ∧
      (complete_teardown = true → ∀ sub ∈ net.subnets.getD [],
        allow_incoming_rule sub.subnet ∉ (getRules s' "filter" "NETAVARK_FORWARD").getD []
        ∧ allow_outgoing_rule sub.subnet
            ∉ (getRules s' "filter" "NETAVARK_FORWARD").getD []) ∧
      (∀ c, getRules s' "nat" c = getRules s "nat" c) := by
  cases hsub : net.subnets with
  | none =>
    refine ⟨s, by simp [teardown_network, hsub], ?_, ?_, fun c => rfl⟩
    · intro _ sub hsubm
      simp [hsub] at hsubm
    · intro _ sub hsubm
      simp [hsub] at hsubm
  | some subs =>
    cases complete_teardown with
    | false =>
      obtain ⟨s', P', e', g', -, hall', f'⟩ := teardown_network_loop_false subs s P hP
      refine ⟨s', by simp [teardown_network, hsub, e'], ?_, by simp, ?_⟩
      · intro _ sub hsubm
        rw [g']
        simpa using hall' sub (by simpa [hsub] using hsubm)
      · intro c
        exact f' "nat" c (by simp)
    | true =>
      obtain ⟨s', P', e', g', -, habsent', -, f'⟩ := teardown_network_loop_true subs s P hP hnd
      refine ⟨s', by simp [teardown_network, hsub, e'], by simp, ?_, ?_⟩
      · intro _ sub hsubm
        rw [g']
        simpa using habsent' sub (by simpa [hsub] using hsubm)
      · intro c
        exact f' "nat" c (by simp)

/-- Witness for C7 at a concrete input (one subnet, partial teardown). -/
theorem claim_C7_teardown_network_witness :
    ∃ s', teardown_network ⟨some [⟨"10.0.0.0/24"⟩], none⟩ false
        ⟨[(("filter", "NETAVARK_FORWARD"), []), (("nat", "NETAVARK-hash"), [])]⟩ = .ok s' ∧
      (false = false → ∀ sub ∈ (some [Subnet.mk "10.0.0.0/24"]).getD [],
        allow_incoming_rule sub.subnet ∈ (getRules s' "filter" "NETAVARK_FORWARD").getD []
        ∧ allow_outgoing_rule sub.subnet
            ∈ (getRules s' "filter" "NETAVARK_FORWARD").getD []) ∧
      (false = true → ∀ sub ∈ (some [Subnet.mk "10.0.0.0/24"]).getD [],
        allow_incoming_rule sub.subnet ∉ (getRules s' "filter" "NETAVARK_FORWARD").getD []
        ∧ allow_outgoing_rule sub.subnet
            ∉ (getRules s' "filter" "NETAVARK_FORWARD").getD []) ∧
      (∀ c, getRules s' "nat" c
        = getRules ⟨[(("filter", "NETAVARK_FORWARD"), []), (("nat", "NETAVARK-hash"), [])]⟩
            "nat" c) :=
  claim_C7_teardown_network ⟨some [⟨"10.0.0.0/24"⟩], none⟩ false
    ⟨[(("filter", "NETAVARK_FORWARD"), []), (("nat", "NETAVARK-hash"), [])]⟩ []
    (by decide) (by decide)

end Netavark
